import Mathlib

/-!
Verification development for the stardust-neon rail-shooter core.

Part 1 embeds the projection module (`services/vectorMath.ts`): the
perspective projector `projectVector`, its analytic inverse
`unprojectVector`, the billboard scale `getScaleFactor` and the
sphere-sphere test `checkCollision`.  JavaScript numbers are modelled as
real numbers, so every identity proved here is exact real arithmetic.
Part 2 embeds the simulation loop of `components/GameEngine.tsx` as
explicit state passing, with `Math.random()` modelled as an ambient
stream of draws and the outbound callbacks recorded as events.
-/

open scoped Classical

noncomputable section

namespace Stardust

/-- Plain 3-component vector, `types.ts` `Vector3`. -/
structure Vector3 where
  x : ℝ
  y : ℝ
  z : ℝ

/-- Plain 2-component vector, `types.ts` `Vector2`. -/
structure Vector2 where
  x : ℝ
  y : ℝ

/-- Focal length (`FOV` in the source). -/
def FOV : ℝ := 500

/-- Near clipping depth. -/
def NEAR_CLIP : ℝ := 1

/-- Far clipping depth. -/
def VIEW_DISTANCE : ℝ := 5000

/-- Fixed camera position, high and back. -/
def CAMERA_POS : Vector3 := ⟨0, 8, -30⟩

/-- Fixed downward camera pitch in radians. -/
def CAMERA_PITCH : ℝ := 0.2

/-- Function `projectVector` from `vectorMath.ts`: translate to camera space, rotate the
y/z plane by the pitch, clip against near/far depth, perspective-divide and
move to screen coordinates.  The final `_cameraZ` argument is unused, exactly
as in the source. -/
def projectVector (v : Vector3) (width height _cameraZ : ℝ) : Option Vector2 :=
  let rX := v.x - CAMERA_POS.x
  let rY := v.y - CAMERA_POS.y
  let rZ := v.z - CAMERA_POS.z
  let c := Real.cos CAMERA_PITCH
  let s := Real.sin CAMERA_PITCH
  let pitchY := rY * c - rZ * s
  let pitchZ := rY * s + rZ * c
  if pitchZ ≤ NEAR_CLIP ∨ pitchZ > VIEW_DISTANCE then
    none
  else
    let scale := FOV / pitchZ
    some ⟨rX * scale + width / 2, -pitchY * scale + height / 2⟩

/-- Function `unprojectVector` from `vectorMath.ts`: analytic inverse of the projector
for a known world-space Z depth. -/
def unprojectVector (normX normY targetZ width height : ℝ) : Vector3 :=
  let rZ := targetZ - CAMERA_POS.z
  let c := Real.cos CAMERA_PITCH
  let s := Real.sin CAMERA_PITCH
  let t := Real.tan CAMERA_PITCH
  let sy := normY * (height / 2)
  let slopeY := -sy / FOV
  let pitchZ := rZ * (s * t + c) / (1 - slopeY * t)
  let scale := FOV / pitchZ
  let sx := normX * (width / 2)
  let rX := sx / scale
  let pitchY := slopeY * pitchZ
  let rY := pitchY * c + pitchZ * s
  ⟨rX + CAMERA_POS.x, rY + CAMERA_POS.y, targetZ⟩

/-- Function `getScaleFactor` from `vectorMath.ts`.  The `_cameraZ` argument is unused,
exactly as in the source. -/
def getScaleFactor (z _cameraZ : ℝ) : ℝ :=
  let rZ := z - CAMERA_POS.z
  let pitchZ := (0 - CAMERA_POS.y) * Real.sin CAMERA_PITCH + rZ * Real.cos CAMERA_PITCH
  if pitchZ ≤ NEAR_CLIP then 0 else FOV / pitchZ

/-- Function `checkCollision` from `vectorMath.ts`: squared-distance sphere test with a
strict inequality, so an exact tie of the radii sum is non-colliding. -/
def checkCollision (a : Vector3) (rA : ℝ) (b : Vector3) (rB : ℝ) : Prop :=
  let dx := a.x - b.x
  let dy := a.y - b.y
  let dz := a.z - b.z
  let distSq := dx * dx + dy * dy + dz * dz
  let radSum := rA + rB
  distSq < radSum * radSum

/-- Camera-space depth after the pitch rotation, the quantity `projectVector`
clips against. -/
def pitchedDepth (v : Vector3) : ℝ :=
  (v.y - CAMERA_POS.y) * Real.sin CAMERA_PITCH + (v.z - CAMERA_POS.z) * Real.cos CAMERA_PITCH

/-!
Part 2: the simulation core of `components/GameEngine.tsx`.

Mutable refs become fields of `GState`; `Math.random()` becomes an ambient
stream `Env.rand` consumed left-to-right through a counter `GState.rng`;
wall-clock `timeNow()` becomes `Env.now`.  The `trace` field and the
`events`/`renders`/`updates` fields of `EngState` are pure instrumentation
recording the spawns and outbound callbacks the spec talks about; they are
written exactly where the source performs the corresponding action and are
never read by the simulation itself.
-/

/-- Entity kind tags from `types.ts`. -/
inductive EType where
  | PLAYER
  | ENEMY_Interceptor
  | ENEMY_Turret
  | OBSTACLE_Pillar
  | PROJECTILE_Player
  | PROJECTILE_Enemy
  | DEBRIS
deriving DecidableEq

/-- Predicate `type.startsWith` with prefix ENEMY on the closed tag set. -/
def EType.isEnemy : EType → Bool
  | .ENEMY_Interceptor => true
  | .ENEMY_Turret => true
  | _ => false

/-- Record `Entity` of `types.ts`.  The random-string `id` is modelled by the raw draw
that produced it, matching its only computational use `Number(ent.id)`. -/
structure Entity where
  id : ℝ
  etype : EType
  position : Vector3
  velocity : Vector3
  scale : Vector3
  active : Bool
  color : String
  rotation : ℝ
  health : ℝ
  scoreValue : ℝ
  radius : ℝ

/-- Record `Particle` of `types.ts`. -/
structure Particle where
  position : Vector3
  velocity : Vector3
  life : ℝ
  maxLife : ℝ
  color : String

/-- Record `MissionData` of `types.ts`. -/
structure MissionData where
  title : String
  briefing : String
  themeColor : String
  enemyDensity : ℝ
  speedModifier : ℝ

/-- Normalized pointer state (`inputRef`). -/
structure InputState where
  x : ℝ
  y : ℝ
  active : Bool

/-- Ambient environment of one simulation step: the wall clock and the
`Math.random()` stream. -/
structure Env where
  now : ℝ
  rand : ℕ → ℝ

/-- Instrumentation record of a spawn or score effect inside `update`. -/
inductive GEvent where
  | shot (isPlayer : Bool) (start target vel : Vector3)
  | scoreGain (value : ℝ)

/-- The complete mutable state read and written by `update` (the refs of
`GameEngineComponent`), plus the `rng` cursor into the random stream and the
instrumentation `trace`. -/
structure GState where
  player : Entity
  entities : List Entity
  particles : List Particle
  score : ℝ
  gameTime : ℝ
  lastFireTime : ℝ
  keys : String → Bool
  input : InputState
  reticle : Vector2
  rng : ℕ
  trace : List GEvent

/-- System constants from `GameEngine.tsx`. -/
def BASE_SCROLL_SPEED : ℝ := 2.5

/-- Minimum wall-time interval between player shots, in ms. -/
def FIRE_RATE : ℝ := 100

/-- World-space floor height. -/
def FLOOR_Y : ℝ := -6

/-- Ship lerp factor toward the clamped target. -/
def SHIP_LAG : ℝ := 0.08

/-- Reticle lerp factor toward the raw input. -/
def RETICLE_LAG : ℝ := 0.15

/-- Aiming plane distance in world Z. -/
def AIM_DISTANCE : ℝ := 400

/-- Margin keeping the ship inside the screen. -/
def SHIP_MARGIN : ℝ := 5

/-- Key codes read by the firing logic. -/
def keySpace : String := "Space"

/-- Second key code read by the firing logic. -/
def keyEnter : String := "Enter"

/-- Colors used by the spawn helpers. -/
def cyanColor : String := "#00ffff"

/-- Player projectile color. -/
def playerShotColor : String := "#00ffaa"

/-- Enemy projectile color. -/
def enemyShotColor : String := "#ff5555"

/-- Explosion color for ship-enemy impacts. -/
def redColor : String := "#ff0000"

/-- Explosion color for enemy-projectile impacts. -/
def orangeColor : String := "#ffaa00"

/-- JavaScript truncation toward zero. -/
def jsTrunc (x : ℝ) : ℝ := if 0 ≤ x then (⌊x⌋ : ℤ) else (⌈x⌉ : ℤ)

/-- JavaScript `%` remainder on numbers. -/
def jsMod (a b : ℝ) : ℝ := a - b * jsTrunc (a / b)

/-- Velocity of a spawned projectile: the vector from the start to the target,
normalized and scaled by the speed (`spawnProjectile` lines computing `vel`). -/
def projVel (startPos targetPos : Vector3) (speed : ℝ) : Vector3 :=
  let dx := targetPos.x - startPos.x
  let dy := targetPos.y - startPos.y
  let dz := targetPos.z - startPos.z
  let dist := Real.sqrt (dx * dx + dy * dy + dz * dz)
  ⟨dx / dist * speed, dy / dist * speed, dz / dist * speed⟩

/-- The entity record pushed by `spawnProjectile`; `k` is the position of its
id draw in the random stream. -/
def mkProjectile (env : Env) (startPos targetPos : Vector3) (isPlayer : Bool)
    (k : ℕ) : Entity :=
  { id := env.rand k
    etype := if isPlayer then .PROJECTILE_Player else .PROJECTILE_Enemy
    position := ⟨startPos.x, startPos.y, startPos.z + (if isPlayer then 5 else -5)⟩
    velocity := projVel startPos targetPos (if isPlayer then 6.0 else 2.0)
    scale := ⟨1, 1, 1⟩
    active := true
    color := if isPlayer then playerShotColor else enemyShotColor
    rotation := 0
    health := 1
    scoreValue := 0
    radius := 2 }

/-- Procedure `spawnProjectile` of `GameEngine.tsx` as a state transformer. -/
def spawnProjectile (env : Env) (startPos targetPos : Vector3) (isPlayer : Bool)
    (st : GState) : GState :=
  let p := mkProjectile env startPos targetPos isPlayer st.rng
  { st with
    entities := st.entities ++ [p]
    rng := st.rng + 1
    trace := st.trace ++ [GEvent.shot isPlayer startPos targetPos p.velocity] }

/-- The entity record pushed by `spawnEnemy`; `k` is the position of its id
draw, followed by the two position draws. -/
def mkEnemy (env : Env) (color : String) (k : ℕ) : Entity :=
  { id := env.rand k
    etype := .ENEMY_Interceptor
    position := ⟨env.rand (k + 1) * 80 - 40, env.rand (k + 2) * 20, 400⟩
    velocity := ⟨0, 0, 0⟩
    scale := ⟨2.5, 2.5, 2.5⟩
    active := true
    color := color
    rotation := 0
    health := 50
    scoreValue := 100
    radius := 4 }

/-- Procedure `spawnEnemy` of `GameEngine.tsx` as a state transformer. -/
def spawnEnemy (env : Env) (color : String) (st : GState) : GState :=
  { st with
    entities := st.entities ++ [mkEnemy env color st.rng]
    rng := st.rng + 3 }

/-- The fifteen particles pushed by `spawnExplosion`. -/
def explosionParticles (env : Env) (pos : Vector3) (color : String) (k : ℕ) :
    List Particle :=
  (List.range 15).map fun i =>
    { position := pos
      velocity := ⟨(env.rand (k + 3 * i) - 0.5) * 3,
                   (env.rand (k + 3 * i + 1) - 0.5) * 3,
                   (env.rand (k + 3 * i + 2) - 0.5) * 3⟩
      life := 500
      maxLife := 500
      color := color }

/-- Procedure `spawnExplosion` of `GameEngine.tsx` as a state transformer. -/
def spawnExplosion (env : Env) (pos : Vector3) (color : String) (st : GState) :
    GState :=
  { st with
    particles := st.particles ++ explosionParticles env pos color st.rng
    rng := st.rng + 45 }

/-- One of the two particles pushed per thruster emission. -/
def thrusterParticle (env : Env) (pos : Vector3) (offset : ℝ) (k : ℕ) : Particle :=
  { position := ⟨pos.x + offset, pos.y, pos.z - 2⟩
    velocity := ⟨(env.rand k - 0.5) * 0.2, (env.rand (k + 1) - 0.5) * 0.2, -2⟩
    life := 200
    maxLife := 200
    color := cyanColor }

/-- Procedure `spawnThrusterParticle` of `GameEngine.tsx` (the `rot` argument is unused
in the source too). -/
def spawnThrusterParticle (env : Env) (pos : Vector3) (_rot : ℝ) (st : GState) :
    GState :=
  { st with
    particles := st.particles ++
      [thrusterParticle env pos (-1) st.rng, thrusterParticle env pos 1 (st.rng + 2)]
    rng := st.rng + 4 }

/-- Step 1 of `update`: reticle smoothing. -/
def reticleStep (st : GState) : GState :=
  { st with reticle :=
      ⟨st.reticle.x + (st.input.x - st.reticle.x) * RETICLE_LAG,
       st.reticle.y + (st.input.y - st.reticle.y) * RETICLE_LAG⟩ }

/-- Step 2 of `update`: ship movement toward the clamped unprojected input. -/
def shipStep (width height : ℝ) (st : GState) : GState :=
  let rightEdge := (unprojectVector 1 0 0 width height).x
  let xLimit := max 10 (rightEdge - SHIP_MARGIN)
  let topEdge := (unprojectVector 0 (-1) 0 width height).y
  let yMax := topEdge - 3
  let moveTargetPos := unprojectVector st.input.x st.input.y 0 width height
  let targetX := max (-xLimit) (min xLimit moveTargetPos.x)
  let targetY := max (FLOOR_Y + 1) (min yMax moveTargetPos.y)
  let px := st.player.position.x + (targetX - st.player.position.x) * SHIP_LAG
  let py := st.player.position.y + (targetY - st.player.position.y) * SHIP_LAG
  { st with player :=
      { st.player with
        position := ⟨px, py, st.player.position.z⟩
        rotation := (px - targetX) * 0.06 } }

/-- Step 3 of `update`: thruster particles on the game-time cadence. -/
def thrusterStep (env : Env) (st : GState) : GState :=
  if jsMod st.gameTime 30 < 16 then
    spawnThrusterParticle env st.player.position st.player.rotation st
  else st

/-- Step 5 of `update`: probabilistic enemy spawning after the grace period. -/
def spawnStep (env : Env) (mission : MissionData) (st : GState) : GState :=
  if st.gameTime > 1500 then
    if env.rand st.rng < 0.02 * mission.enemyDensity then
      spawnEnemy env mission.themeColor { st with rng := st.rng + 1 }
    else { st with rng := st.rng + 1 }
  else st

/-- Step 6 of `update`: firing.  `isFiring` is the source's
`keys['Space'] || keys['Enter'] || true`. -/
def fireStep (env : Env) (width height : ℝ) (st : GState) : GState :=
  let isFiring := (st.keys keySpace || st.keys keyEnter) || true
  if isFiring ∧ env.now - st.lastFireTime > FIRE_RATE then
    let aimPos := unprojectVector st.input.x st.input.y AIM_DISTANCE width height
    { spawnProjectile env st.player.position aimPos true st with
        lastFireTime := env.now }
  else st

/-- Per-entity motion plus the enemy fire roll (lines 199-212 of the source). -/
def moveAndFire (env : Env) (scrollSpeed dt : ℝ) (st : GState) (ent : Entity) :
    GState × Entity :=
  if ent.etype = EType.PROJECTILE_Player then
    (st, { ent with position :=
      ⟨ent.position.x + ent.velocity.x * (dt / 16),
       ent.position.y + ent.velocity.y * (dt / 16),
       ent.position.z + ent.velocity.z * (dt / 16)⟩ })
  else if ent.etype = EType.PROJECTILE_Enemy then
    (st, { ent with position :=
      ⟨ent.position.x, ent.position.y, ent.position.z - 2.0 * (dt / 16)⟩ })
  else if ent.etype.isEnemy then
    let zNew := ent.position.z - scrollSpeed
    let xNew := ent.position.x + Real.sin (zNew * 0.02 + ent.id) * 0.3
    let entMoved := { ent with position := ⟨xNew, ent.position.y, zNew⟩ }
    let roll := env.rand st.rng
    let st1 := { st with rng := st.rng + 1 }
    if roll < 0.015 ∧ zNew > 50 ∧ zNew < 300 then
      (spawnProjectile env entMoved.position st1.player.position false st1, entMoved)
    else (st1, entMoved)
  else (st, ent)

/-- Effect of one enemy-versus-player-projectile check (lines 219-227): the
enemy in the second component takes 50 damage, the projectile at index `j` is
consumed, an explosion is spawned, and on death the enemy is deactivated and
its `scoreValue` added to the score. -/
def projHit (env : Env) (p : GState × Entity) (j : ℕ) : GState × Entity :=
  match p.1.entities[j]? with
  | none => p
  | some proj =>
    if checkCollision p.2.position p.2.radius proj.position proj.radius then
      let ent1 := { p.2 with health := p.2.health - 50 }
      let st1 := { p.1 with entities := p.1.entities.set j { proj with active := false } }
      let st2 := spawnExplosion env ent1.position ent1.color st1
      if ent1.health ≤ 0 then
        ({ st2 with
            score := st2.score + ent1.scoreValue
            trace := st2.trace ++ [GEvent.scoreGain ent1.scoreValue] },
         { ent1 with active := false })
      else (st2, ent1)
    else p

/-- Indices of the active player projectiles, the source's
`entities.filter(p => p.type === 'PROJECTILE_Player' && p.active)` computed
once at the start of an enemy's collision block. -/
def playerProjFilter (l : List Entity) : List ℕ :=
  (List.range l.length).filter fun j =>
    match l[j]? with
    | some p => decide (p.etype = EType.PROJECTILE_Player) && p.active
    | none => false

/-- Effect of the enemy-versus-player check (lines 229-233): the enemy is
deactivated, the player takes 20 damage and an explosion is spawned at the
player. -/
def enemyPlayerHit (env : Env) (p : GState × Entity) : GState × Entity :=
  if checkCollision p.1.player.position p.1.player.radius p.2.position p.2.radius then
    let st1 := { p.1 with player := { p.1.player with health := p.1.player.health - 20 } }
    (spawnExplosion env st1.player.position redColor st1, { p.2 with active := false })
  else p

/-- The body of the `entities.forEach` pass of `update` (lines 196-240) at
index `i`: skip inactive entities, move and maybe fire, cull out-of-bounds,
resolve collisions against the current list, and write the entity back. -/
def entBody (env : Env) (scrollSpeed dt : ℝ) (st : GState) (i : ℕ) : GState :=
  match st.entities[i]? with
  | none => st
  | some ent =>
    if ent.active = false then st
    else
      let mf := moveAndFire env scrollSpeed dt st ent
      let st1 := mf.1
      let entMoved := mf.2
      let ent2 := if entMoved.position.z < -40 ∨ entMoved.position.z > 500 then
          { entMoved with active := false }
        else entMoved
      let res :=
        if ent2.etype.isEnemy ∧ ent2.active = true then
          enemyPlayerHit env
            ((playerProjFilter st1.entities).foldl (projHit env) (st1, ent2))
        else if ent2.etype = EType.PROJECTILE_Enemy ∧ ent2.active = true then
          if checkCollision st1.player.position st1.player.radius
              ent2.position ent2.radius then
            (spawnExplosion env st1.player.position orangeColor
              { st1 with player :=
                  { st1.player with health := st1.player.health - 10 } },
             { ent2 with active := false })
          else (st1, ent2)
        else (st1, ent2)
      { res.1 with entities := res.1.entities.set i res.2 }

/-- Step 7 of `update`: the `forEach` pass over the indices present when the
pass starts (JavaScript `forEach` does not visit elements appended during the
iteration). -/
def entitiesStep (env : Env) (scrollSpeed dt : ℝ) (st : GState) : GState :=
  (List.range st.entities.length).foldl (entBody env scrollSpeed dt) st

/-- Step 10 of `update`: end-of-frame compaction of deactivated entities. -/
def compactStep (st : GState) : GState :=
  { st with entities := st.entities.filter fun e => e.active }

/-- Step 11 of `update`: particle integration and compaction. -/
def particlesStep (dt : ℝ) (st : GState) : GState :=
  { st with particles :=
      (st.particles.map fun p =>
        { p with
          position := ⟨p.position.x + p.velocity.x * (dt / 16),
                       p.position.y + p.velocity.y * (dt / 16),
                       p.position.z + p.velocity.z * (dt / 16)⟩
          life := p.life - dt }).filter fun p => decide (p.life > 0) }

/-- Procedure `update(dt)` of `GameEngine.tsx`, the whole simulation step in source
order. -/
def update (env : Env) (mission : MissionData) (width height dt : ℝ)
    (st : GState) : GState :=
  let s1 := reticleStep st
  let s2 := shipStep width height s1
  let s3 := thrusterStep env s2
  let scrollSpeed := BASE_SCROLL_SPEED * mission.speedModifier * (dt / 16)
  let s4 := spawnStep env mission s3
  let s5 := fireStep env width height s4
  let s6 := entitiesStep env scrollSpeed dt s5
  let s7 := compactStep s6
  particlesStep dt s7

/-- Outbound notifications to the external shell. -/
inductive Ev where
  | scoreChanged (value : ℝ)
  | healthChanged (value : ℤ)
  | gameOver (finalScore : ℝ)

/-- State owned by the animation loop (`animate` plus its refs), with
instrumentation: emitted notifications, render and update counters, and the
`scheduled` flag standing for a pending `requestAnimationFrame` callback. -/
structure EngState where
  g : GState
  lastTime : ℝ
  lastReportedScore : ℝ
  lastReportedHealth : ℤ
  scheduled : Bool
  events : List Ev
  renders : ℕ
  updates : ℕ

/-- One frame's inputs to the loop callback. -/
structure Frame where
  env : Env
  mission : MissionData
  width : ℝ
  height : ℝ
  paused : Bool
  time : ℝ

/-- Callback `animate(time)` of `GameEngine.tsx` (lines 97-130): compute the frame
delta, advance the simulation unless paused, render, report score and health
changes, then either schedule the next frame or emit the single game-over. -/
def animate (env : Env) (mission : MissionData) (width height : ℝ)
    (paused : Bool) (time : ℝ) (es : EngState) : EngState :=
  let last0 := if es.lastTime = 0 then time else es.lastTime
  let deltaTime := time - last0
  let es1 := { es with lastTime := time }
  let es2 :=
    if paused = false then
      { es1 with
        g := update env mission width height deltaTime
              { es1.g with gameTime := es1.g.gameTime + deltaTime }
        updates := es1.updates + 1 }
    else es1
  let es3 := { es2 with renders := es2.renders + 1 }
  if paused = false then
    let es4 :=
      if es3.g.score ≠ es3.lastReportedScore then
        { es3 with
          events := es3.events ++ [Ev.scoreChanged es3.g.score]
          lastReportedScore := es3.g.score }
      else es3
    let es5 :=
      if ⌈es4.g.player.health⌉ ≠ es4.lastReportedHealth then
        { es4 with
          lastReportedHealth := ⌈es4.g.player.health⌉
          events := es4.events ++ [Ev.healthChanged ⌈es4.g.player.health⌉] }
      else es4
    if es5.g.player.health > 0 then { es5 with scheduled := true }
    else { es5 with
      events := es5.events ++ [Ev.gameOver es5.g.score]
      scheduled := false }
  else { es3 with scheduled := true }

/-- One host frame: the callback runs only if a callback was scheduled. -/
def loopStep (f : Frame) (es : EngState) : EngState :=
  if es.scheduled = true then
    animate f.env f.mission f.width f.height f.paused f.time
      { es with scheduled := false }
  else es

/-- A run of the host's frame callbacks. -/
def runLoop (fs : List Frame) (es : EngState) : EngState :=
  fs.foldl (fun s f => loopStep f s) es

/-- A run of bare simulation steps, for properties of `update` sequences. -/
def runSteps (mission : MissionData) (width height : ℝ)
    (fs : List (Env × ℝ)) (st : GState) : GState :=
  fs.foldl (fun s fe => update fe.1 mission width height fe.2 s) st

/-- The frame delta `animate` computes from the host time stamp (zero on the
very first frame). -/
def frameDelta (time : ℝ) (es : EngState) : ℝ :=
  time - (if es.lastTime = 0 then time else es.lastTime)

/-- The simulation state produced inside one unpaused `animate` call. -/
def frameG (env : Env) (mission : MissionData) (width height time : ℝ)
    (es : EngState) : GState :=
  update env mission width height (frameDelta time es)
    { es.g with gameTime := es.g.gameTime + frameDelta time es }

/-- Recognizer for player-shot trace events. -/
def GEvent.isPlayerShot : GEvent → Bool
  | .shot true _ _ _ => true
  | _ => false

/-- The player shots recorded in a trace. -/
def playerShots (tr : List GEvent) : List GEvent := tr.filter GEvent.isPlayerShot

/-- Recognizer for health notifications. -/
def Ev.isHealth : Ev → Bool
  | .healthChanged _ => true
  | _ => false

/-- Recognizer for game-over notifications. -/
def Ev.isGameOver : Ev → Bool
  | .gameOver _ => true
  | _ => false

/-- The health notifications in an event log. -/
def healthEvents (evs : List Ev) : List Ev := evs.filter Ev.isHealth

/-- The game-over notifications in an event log. -/
def gameOvers (evs : List Ev) : List Ev := evs.filter Ev.isGameOver

/-- All entities spawned by the core carry a non-negative `scoreValue`; this
is the state invariant behind score monotonicity. -/
def scoreInv (st : GState) : Prop := ∀ e ∈ st.entities, 0 ≤ e.scoreValue

/-- The per-frame observables named by the order-independence property:
player health, score, entity list, and the processed enemy's health and
liveness. -/
def observables (p : GState × Entity) : ℝ × ℝ × List Entity × ℝ × Bool :=
  (p.1.player.health, p.1.score, p.1.entities, p.2.health, p.2.active)

/-! Concrete states used by closed witnesses and counterexamples. -/

/-- A player entity as initialized by the component, at full health. -/
def duelPlayer : Entity :=
  ⟨0, .PLAYER, ⟨0, 0, 0⟩, ⟨0, 0, 0⟩, ⟨1, 1, 1⟩, true, cyanColor, 0, 100, 0, 3⟩

/-- An enemy interceptor right in front of the player. -/
def duelEnemy : Entity :=
  ⟨0, .ENEMY_Interceptor, ⟨0, 0, 4⟩, ⟨0, 0, 0⟩, ⟨2.5, 2.5, 2.5⟩, true, redColor, 0, 50, 100, 4⟩

/-- An active player projectile overlapping the enemy. -/
def duelProj : Entity :=
  ⟨0, .PROJECTILE_Player, ⟨0, 0, 5⟩, ⟨0, 0, 6⟩, ⟨1, 1, 1⟩, true, playerShotColor, 0, 1, 0, 2⟩

/-- Environment with a constant zero random stream. -/
def duelEnv : Env := ⟨0, fun _ => 0⟩

/-- Mid-frame state for the simultaneous-collision scenario. -/
def duelState : GState :=
  { player := duelPlayer
    entities := [duelProj]
    particles := []
    score := 0
    gameTime := 0
    lastFireTime := 0
    keys := fun _ => false
    input := ⟨0, 0, false⟩
    reticle := ⟨0, 0⟩
    rng := 0
    trace := [] }

/-- An active enemy projectile used to witness the motion theorem. -/
def strayShot : Entity :=
  ⟨0, .PROJECTILE_Enemy, ⟨1, 2, 100⟩, ⟨0.5, 0.5, -2⟩, ⟨1, 1, 1⟩, true, enemyShotColor, 0, 1, 0, 2⟩

/-- State holding just the stray enemy projectile. -/
def strayState : GState :=
  { player := duelPlayer
    entities := [strayShot]
    particles := []
    score := 0
    gameTime := 0
    lastFireTime := 0
    keys := fun _ => false
    input := ⟨0, 0, false⟩
    reticle := ⟨0, 0⟩
    rng := 0
    trace := [] }

/-- Mission parameters for concrete runs. -/
def scenarioMission : MissionData := ⟨cyanColor, cyanColor, cyanColor, 1, 1⟩

/-- Environment whose stream never passes a probability check and whose wall
clock sits at the exact fire-rate boundary. -/
def boundaryEnv : Env := ⟨100, fun _ => 1⟩

/-- A quiet state with no entities, used at the fire-rate boundary. -/
def boundaryG : GState :=
  { player := duelPlayer
    entities := []
    particles := []
    score := 0
    gameTime := 0
    lastFireTime := 0
    keys := fun _ => false
    input := ⟨0, 0, false⟩
    reticle := ⟨0, 0⟩
    rng := 0
    trace := [] }

/-- The player one enemy-impact away from death. -/
def scenarioPlayer : Entity :=
  ⟨0, .PLAYER, ⟨0, 0, 0⟩, ⟨0, 0, 0⟩, ⟨1, 1, 1⟩, true, cyanColor, 0, 10, 0, 3⟩

/-- An enemy close enough to ram the player this frame. -/
def scenarioEnemy : Entity :=
  ⟨0, .ENEMY_Interceptor, ⟨0, 0, 3⟩, ⟨0, 0, 0⟩, ⟨2.5, 2.5, 2.5⟩, true, redColor, 0, 50, 100, 4⟩

/-- Wall clock at zero, random stream constantly one (no probabilistic
events fire). -/
def scenarioEnv : Env := ⟨0, fun _ => 1⟩

/-- Game state in which the ramming collision is forced this frame. -/
def scenarioG : GState :=
  { player := scenarioPlayer
    entities := [scenarioEnemy]
    particles := []
    score := 0
    gameTime := 0
    lastFireTime := 0
    keys := fun _ => false
    input := ⟨0, 0, false⟩
    reticle := ⟨0, 0⟩
    rng := 0
    trace := [] }

/-- Loop state wrapping `scenarioG` with a scheduled callback. -/
def scenarioES : EngState :=
  { g := scenarioG
    lastTime := 0
    lastReportedScore := 0
    lastReportedHealth := 10
    scheduled := true
    events := []
    renders := 0
    updates := 0 }

/-- The frame on which the fatal collision happens. -/
def scenarioFrame : Frame :=
  { env := scenarioEnv
    mission := scenarioMission
    width := 1000
    height := 1000
    paused := false
    time := 5 }

/-- A second frame after the fatal one. -/
def scenarioFrame2 : Frame :=
  { env := scenarioEnv
    mission := scenarioMission
    width := 1000
    height := 1000
    paused := false
    time := 21 }

/-! Basic facts about the fixed camera trigonometry. -/

lemma cos_pitch_pos : 0 < Real.cos CAMERA_PITCH := by
  have hp3 := Real.pi_gt_three
  have h1 : CAMERA_PITCH < Real.pi / 2 := by rw [CAMERA_PITCH]; linarith
  have h2 : -(Real.pi / 2) < CAMERA_PITCH := by rw [CAMERA_PITCH]; linarith
  exact Real.cos_pos_of_mem_Ioo (Set.mem_Ioo.mpr ⟨h2, h1⟩)

lemma cos_pitch_ne_zero : Real.cos CAMERA_PITCH ≠ 0 := ne_of_gt cos_pitch_pos

lemma cos_pitch_le_one : Real.cos CAMERA_PITCH ≤ 1 := Real.cos_le_one _

lemma half_le_cos_pitch : (1 / 2 : ℝ) ≤ Real.cos CAMERA_PITCH := by
  have hp3 := Real.pi_gt_three
  have h1 : CAMERA_PITCH ≤ Real.pi / 3 := by rw [CAMERA_PITCH]; linarith
  have h2 : Real.pi / 3 ≤ Real.pi := by linarith
  have h0 : (0:ℝ) ≤ CAMERA_PITCH := by rw [CAMERA_PITCH]; norm_num
  have := Real.cos_le_cos_of_nonneg_of_le_pi h0 h2 h1
  rw [Real.cos_pi_div_three] at this
  exact this

lemma sin_pitch_nonneg : 0 ≤ Real.sin CAMERA_PITCH := by
  have hp3 := Real.pi_gt_three
  apply Real.sin_nonneg_of_nonneg_of_le_pi
  · rw [CAMERA_PITCH]; norm_num
  · rw [CAMERA_PITCH]; linarith

lemma sin_pitch_lt : Real.sin CAMERA_PITCH < 0.2 := by
  have := Real.sin_lt (x := (0.2 : ℝ)) (by norm_num)
  rw [CAMERA_PITCH]
  exact this

lemma tan_pitch_nonneg : 0 ≤ Real.tan CAMERA_PITCH := by
  rw [Real.tan_eq_sin_div_cos]
  exact div_nonneg sin_pitch_nonneg (le_of_lt cos_pitch_pos)

lemma tan_pitch_lt : Real.tan CAMERA_PITCH < 0.4 := by
  rw [Real.tan_eq_sin_div_cos, div_lt_iff₀ cos_pitch_pos]
  have h1 := sin_pitch_lt
  have h2 := half_le_cos_pitch
  nlinarith

lemma sin_sq_add_cos_sq_pitch :
    Real.sin CAMERA_PITCH * Real.sin CAMERA_PITCH
      + Real.cos CAMERA_PITCH * Real.cos CAMERA_PITCH = 1 := by
  have h := Real.sin_sq_add_cos_sq CAMERA_PITCH
  nlinarith [h]

/-! Pure algebra behind the analytic inverse.  `c`, `s` stand for the pitch
cosine/sine, `slopeY` for the screen slope, `rZ` for the world-space depth
offset; `rZ / (c - slopeY * s)` is the closed form of the inverse's pitch
depth. -/

lemma denom_clear (c s slopeY : ℝ) (hc : c ≠ 0)
    (hden : 1 - slopeY * (s / c) ≠ 0) : c - slopeY * s ≠ 0 := by
  intro h0
  apply hden
  have h : 1 - slopeY * (s / c) = (c - slopeY * s) / c := by
    field_simp
  rw [h, h0, zero_div]

lemma inverse_depth_closed_form (c s slopeY rZ : ℝ) (hc : c ≠ 0)
    (hsc : s * s + c * c = 1) (hden : 1 - slopeY * (s / c) ≠ 0) :
    rZ * (s * (s / c) + c) / (1 - slopeY * (s / c)) = rZ / (c - slopeY * s) := by
  have hd := denom_clear c s slopeY hc hden
  have h1 : s * (s / c) + c = 1 / c := by
    field_simp
    linear_combination hsc
  have h2 : 1 - slopeY * (s / c) = (c - slopeY * s) / c := by
    field_simp
  rw [h1, h2, div_div_eq_mul_div]
  congr 1
  field_simp

lemma pitch_roundtrip_core (c s slopeY rZ : ℝ) (hsc : s * s + c * c = 1)
    (hd : c - slopeY * s ≠ 0) :
    (slopeY * (rZ / (c - slopeY * s)) * c + (rZ / (c - slopeY * s)) * s) * s + rZ * c
        = rZ / (c - slopeY * s)
    ∧ (slopeY * (rZ / (c - slopeY * s)) * c + (rZ / (c - slopeY * s)) * s) * c - rZ * s
        = slopeY * (rZ / (c - slopeY * s)) := by
  constructor
  · field_simp
    ring_nf
    linear_combination rZ * hsc
  · field_simp
    ring_nf
    linear_combination slopeY * rZ * hsc

/-- Unfolding of `projectVector` when the pitched depth is inside the clip
range. -/
lemma projectVector_eq_some (v : Vector3) (W H cz : ℝ)
    (h1 : NEAR_CLIP < pitchedDepth v) (h2 : pitchedDepth v ≤ VIEW_DISTANCE) :
    projectVector v W H cz =
      some ⟨(v.x - CAMERA_POS.x) * (FOV / pitchedDepth v) + W / 2,
            -((v.y - CAMERA_POS.y) * Real.cos CAMERA_PITCH
                - (v.z - CAMERA_POS.z) * Real.sin CAMERA_PITCH)
              * (FOV / pitchedDepth v) + H / 2⟩ := by
  have hd : pitchedDepth v =
      (v.y - CAMERA_POS.y) * Real.sin CAMERA_PITCH
        + (v.z - CAMERA_POS.z) * Real.cos CAMERA_PITCH := rfl
  simp only [projectVector]
  rw [if_neg]
  · rw [hd]
  · rw [← hd]
    push_neg
    exact ⟨h1, h2⟩

/-- Unfolding of `projectVector` when the pitched depth is outside the clip
range. -/
lemma projectVector_eq_none (v : Vector3) (W H cz : ℝ)
    (h : pitchedDepth v ≤ NEAR_CLIP ∨ VIEW_DISTANCE < pitchedDepth v) :
    projectVector v W H cz = none := by
  simp only [projectVector]
  rw [if_pos]
  exact h

/-- The coordinates produced by `unprojectVector`, written with the closed-form
inverse depth `P = rZ / (c - slopeY * s)`. -/
lemma unprojectVector_coords (normX normY targetZ width height : ℝ)
    (hden : 1 - -(normY * (height / 2)) / FOV * Real.tan CAMERA_PITCH ≠ 0) :
    unprojectVector normX normY targetZ width height =
      ⟨normX * (width / 2) *
          ((targetZ - CAMERA_POS.z) /
            (Real.cos CAMERA_PITCH
              - -(normY * (height / 2)) / FOV * Real.sin CAMERA_PITCH)) / FOV,
        -(normY * (height / 2)) / FOV *
            ((targetZ - CAMERA_POS.z) /
              (Real.cos CAMERA_PITCH
                - -(normY * (height / 2)) / FOV * Real.sin CAMERA_PITCH))
            * Real.cos CAMERA_PITCH
          + ((targetZ - CAMERA_POS.z) /
              (Real.cos CAMERA_PITCH
                - -(normY * (height / 2)) / FOV * Real.sin CAMERA_PITCH))
            * Real.sin CAMERA_PITCH + CAMERA_POS.y,
        targetZ⟩ := by
  have hc := cos_pitch_ne_zero
  have hsc := sin_sq_add_cos_sq_pitch
  have ht := Real.tan_eq_sin_div_cos CAMERA_PITCH
  simp only [unprojectVector]
  rw [ht] at hden ⊢
  rw [inverse_depth_closed_form _ _ _ _ hc hsc hden]
  have hx : normX * (width / 2) /
      (FOV / ((targetZ - CAMERA_POS.z) /
        (Real.cos CAMERA_PITCH
          - -(normY * (height / 2)) / FOV * Real.sin CAMERA_PITCH))) =
      normX * (width / 2) *
        ((targetZ - CAMERA_POS.z) /
          (Real.cos CAMERA_PITCH
            - -(normY * (height / 2)) / FOV * Real.sin CAMERA_PITCH)) / FOV := by
    rw [div_div_eq_mul_div]
  rw [hx]
  simp [CAMERA_POS]

/-- The pitched camera-space depth of an unprojected point equals the
closed-form inverse depth. -/
lemma pitchedDepth_unproject (normX normY targetZ W H : ℝ)
    (hden : 1 - -(normY * (H / 2)) / FOV * Real.tan CAMERA_PITCH ≠ 0) :
    pitchedDepth (unprojectVector normX normY targetZ W H) =
      (targetZ - CAMERA_POS.z) /
        (Real.cos CAMERA_PITCH - -(normY * (H / 2)) / FOV * Real.sin CAMERA_PITCH) := by
  have hc := cos_pitch_ne_zero
  have hsc := sin_sq_add_cos_sq_pitch
  have ht := Real.tan_eq_sin_div_cos CAMERA_PITCH
  have hden' : 1 - -(normY * (H / 2)) / FOV *
      (Real.sin CAMERA_PITCH / Real.cos CAMERA_PITCH) ≠ 0 := by
    rw [← ht]; exact hden
  have hd := denom_clear (Real.cos CAMERA_PITCH) (Real.sin CAMERA_PITCH)
    (-(normY * (H / 2)) / FOV) hc hden'
  rw [unprojectVector_coords normX normY targetZ W H hden]
  simp only [pitchedDepth]
  have hcore := (pitch_roundtrip_core (Real.cos CAMERA_PITCH) (Real.sin CAMERA_PITCH)
    (-(normY * (H / 2)) / FOV) (targetZ - CAMERA_POS.z) hsc hd).1
  linear_combination hcore

/-- C1: Projection/unprojection round trip: whenever the inverse is
non-degenerate (`1 - slopeY * tan 0.2 ≠ 0`) and the unprojected point's
camera-space depth after pitch lies strictly above the near clip and at most
the far clip, projecting the unprojection of a normalized screen offset
returns exactly the screen point `(normX * W / 2 + W / 2, normY * H / 2 + H / 2)`,
over exact real arithmetic. -/
theorem projection_unprojection_round_trip
    (normX normY targetZ W H cz : ℝ)
    (hden : 1 - -(normY * (H / 2)) / FOV * Real.tan CAMERA_PITCH ≠ 0)
    (hnear : NEAR_CLIP < pitchedDepth (unprojectVector normX normY targetZ W H))
    (hfar : pitchedDepth (unprojectVector normX normY targetZ W H) ≤ VIEW_DISTANCE) :
    projectVector (unprojectVector normX normY targetZ W H) W H cz =
      some ⟨normX * W / 2 + W / 2, normY * H / 2 + H / 2⟩ := by
  have hc := cos_pitch_ne_zero
  have hsc := sin_sq_add_cos_sq_pitch
  have ht := Real.tan_eq_sin_div_cos CAMERA_PITCH
  have hFOV : FOV ≠ 0 := by norm_num [FOV]
  have hden' : 1 - -(normY * (H / 2)) / FOV *
      (Real.sin CAMERA_PITCH / Real.cos CAMERA_PITCH) ≠ 0 := by
    rw [← ht]; exact hden
  have hd := denom_clear (Real.cos CAMERA_PITCH) (Real.sin CAMERA_PITCH)
    (-(normY * (H / 2)) / FOV) hc hden'
  have hpd := pitchedDepth_unproject normX normY targetZ W H hden
  have hP0 : (targetZ - CAMERA_POS.z) /
      (Real.cos CAMERA_PITCH - -(normY * (H / 2)) / FOV * Real.sin CAMERA_PITCH) ≠ 0 := by
    rw [← hpd]
    intro h0
    rw [h0] at hnear
    norm_num [NEAR_CLIP] at hnear
  have hcore := pitch_roundtrip_core (Real.cos CAMERA_PITCH) (Real.sin CAMERA_PITCH)
    (-(normY * (H / 2)) / FOV) (targetZ - CAMERA_POS.z) hsc hd
  rw [projectVector_eq_some _ _ _ _ hnear hfar, hpd,
    unprojectVector_coords normX normY targetZ W H hden]
  set c := Real.cos CAMERA_PITCH with hcs
  set s := Real.sin CAMERA_PITCH with hss
  set q := -(normY * (H / 2)) / FOV with hq
  set P := (targetZ - CAMERA_POS.z) / (c - q * s) with hPs
  congr 1
  rw [Vector2.mk.injEq]
  refine ⟨?_, ?_⟩
  · show (normX * (W / 2) * P / FOV - CAMERA_POS.x) * (FOV / P) + W / 2
        = normX * W / 2 + W / 2
    rw [show CAMERA_POS.x = 0 from rfl, sub_zero]
    field_simp
    ring
  · show -((q * P * c + P * s + CAMERA_POS.y - CAMERA_POS.y) * c
        - (targetZ - CAMERA_POS.z) * s) * (FOV / P) + H / 2
        = normY * H / 2 + H / 2
    rw [add_sub_cancel_right, hcore.2, hq]
    field_simp
    ring

/-- Closed witness for the round-trip theorem at the screen center aiming at
world depth zero on a 2-by-2 surface. -/
theorem projection_unprojection_round_trip_witness :
    projectVector (unprojectVector 0 0 0 2 2) 2 2 0 =
      some ⟨0 * 2 / 2 + 2 / 2, 0 * 2 / 2 + 2 / 2⟩ := by
  have hden0 : (1:ℝ) - -(0 * ((2:ℝ) / 2)) / FOV * Real.tan CAMERA_PITCH ≠ 0 := by
    norm_num [FOV]
  have hpd := pitchedDepth_unproject 0 0 0 2 2 hden0
  have hcpos := cos_pitch_pos
  have hc1 := cos_pitch_le_one
  have hch := half_le_cos_pitch
  have hnear : NEAR_CLIP < pitchedDepth (unprojectVector 0 0 0 2 2) := by
    rw [hpd]
    norm_num [CAMERA_POS, NEAR_CLIP, FOV]
    rw [lt_div_iff₀ hcpos]
    linarith
  have hfar : pitchedDepth (unprojectVector 0 0 0 2 2) ≤ VIEW_DISTANCE := by
    rw [hpd]
    norm_num [CAMERA_POS, VIEW_DISTANCE, FOV]
    rw [div_le_iff₀ hcpos]
    linarith
  exact projection_unprojection_round_trip 0 0 0 2 2 0 hden0 hnear hfar

/-- C5: Projection clipping: `projectVector` returns the sentinel `none`
exactly when the pitched camera-space depth `pz = (y - 8) sin 0.2 + (z + 30) cos 0.2`
satisfies `pz ≤ 1` or `pz > 5000`; otherwise it returns the screen point
`((x - 0) * (500 / pz) + W / 2, -py * (500 / pz) + H / 2)`.  Being a total
function, it never throws. -/
theorem projection_clipping_sentinel (v : Vector3) (W H cz : ℝ) :
    (projectVector v W H cz = none ↔
      (v.y - 8) * Real.sin 0.2 + (v.z + 30) * Real.cos 0.2 ≤ 1 ∨
        5000 < (v.y - 8) * Real.sin 0.2 + (v.z + 30) * Real.cos 0.2)
    ∧ (1 < (v.y - 8) * Real.sin 0.2 + (v.z + 30) * Real.cos 0.2 →
        (v.y - 8) * Real.sin 0.2 + (v.z + 30) * Real.cos 0.2 ≤ 5000 →
        projectVector v W H cz =
          some ⟨(v.x - 0) * (500 / ((v.y - 8) * Real.sin 0.2 + (v.z + 30) * Real.cos 0.2)) + W / 2,
                -((v.y - 8) * Real.cos 0.2 - (v.z + 30) * Real.sin 0.2)
                  * (500 / ((v.y - 8) * Real.sin 0.2 + (v.z + 30) * Real.cos 0.2)) + H / 2⟩) := by
  have hpd : pitchedDepth v = (v.y - 8) * Real.sin 0.2 + (v.z + 30) * Real.cos 0.2 := by
    simp only [pitchedDepth, CAMERA_POS, CAMERA_PITCH]
    ring
  by_cases hcl : pitchedDepth v ≤ NEAR_CLIP ∨ VIEW_DISTANCE < pitchedDepth v
  · have hnone := projectVector_eq_none v W H cz hcl
    rw [hpd] at hcl
    refine ⟨⟨fun _ => by simpa [NEAR_CLIP, VIEW_DISTANCE] using hcl, fun _ => hnone⟩, ?_⟩
    intro hlt hle
    exfalso
    rcases hcl with h | h
    · rw [NEAR_CLIP] at h; linarith
    · rw [VIEW_DISTANCE] at h; linarith
  · push_neg at hcl
    have hsome := projectVector_eq_some v W H cz hcl.1 hcl.2
    rw [hpd] at hcl
    constructor
    · constructor
      · intro h
        rw [hsome] at h
        exact absurd h (by simp)
      · intro h
        exfalso
        rcases h with h | h
        · rw [NEAR_CLIP] at hcl; linarith [hcl.1]
        · rw [VIEW_DISTANCE] at hcl; linarith [hcl.2]
    · intro _ _
      rw [hsome, hpd]
      congr 1
      rw [Vector2.mk.injEq]
      constructor
      · simp only [CAMERA_POS, FOV]
        try ring
      · simp only [CAMERA_POS, CAMERA_PITCH, FOV]
        try ring

/-- Closed witness for the clipping theorem at a visible point. -/
theorem projection_clipping_sentinel_witness :
    projectVector ⟨0, 8, 30⟩ 2 2 0 =
      some ⟨((0:ℝ) - 0) * (500 / (((8:ℝ) - 8) * Real.sin 0.2 + ((30:ℝ) + 30) * Real.cos 0.2)) + 2 / 2,
            -(((8:ℝ) - 8) * Real.cos 0.2 - ((30:ℝ) + 30) * Real.sin 0.2)
              * (500 / (((8:ℝ) - 8) * Real.sin 0.2 + ((30:ℝ) + 30) * Real.cos 0.2)) + 2 / 2⟩ := by
  have hch : (1 / 2 : ℝ) ≤ Real.cos 0.2 := by
    have := half_le_cos_pitch
    rwa [CAMERA_PITCH] at this
  have hc1 : Real.cos 0.2 ≤ 1 := Real.cos_le_one _
  exact (projection_clipping_sentinel ⟨0, 8, 30⟩ 2 2 0).2
    (by norm_num; nlinarith) (by norm_num; nlinarith)

/-- C4: `checkCollision` is true iff the squared distance between centers is
strictly below the squared radii sum; an exact tie is non-colliding, so unit
spheres exactly 2.0 apart do not collide while 1.999 apart they do. -/
theorem collision_strict_boundary :
    (∀ (a : Vector3) (rA : ℝ) (b : Vector3) (rB : ℝ),
      checkCollision a rA b rB ↔
        (a.x - b.x) * (a.x - b.x) + (a.y - b.y) * (a.y - b.y) + (a.z - b.z) * (a.z - b.z)
          < (rA + rB) * (rA + rB))
    ∧ ¬ checkCollision ⟨0, 0, 0⟩ 1 ⟨2, 0, 0⟩ 1
    ∧ checkCollision ⟨0, 0, 0⟩ 1 ⟨1.999, 0, 0⟩ 1 := by
  refine ⟨fun a rA b rB => Iff.rfl, ?_, ?_⟩
  · simp only [checkCollision]
    norm_num
  · simp only [checkCollision]
    norm_num

/-- Closed witness for the collision boundary theorem. -/
theorem collision_strict_boundary_witness :
    checkCollision ⟨0, 0, 0⟩ 1 ⟨1.999, 0, 0⟩ 1 :=
  collision_strict_boundary.2.2

/-- C10: the trailing `_cameraZ` arguments of `projectVector` and
`getScaleFactor` are dead: outputs are independent of them. -/
theorem camera_z_parameter_dead (v : Vector3) (W H c1 c2 z : ℝ) :
    projectVector v W H c1 = projectVector v W H c2
      ∧ getScaleFactor z c1 = getScaleFactor z c2 :=
  ⟨rfl, rfl⟩


/-- Folding a step that preserves a predicate preserves it over any list. -/
lemma foldl_preserve {α β : Type} (P : β → Prop) (f : β → α → β)
    (h : ∀ b a, P b → P (f b a)) :
    ∀ (l : List α) (b : β), P b → P (l.foldl f b) := by
  intro l
  induction l with
  | nil => intro b hb; exact hb
  | cons a t ih => intro b hb; exact ih _ (h b a hb)

/-- C2: within one step, when a player projectile hits enemy `e` and enemy
`e` simultaneously hits the player, the two collision effects commute on the
observables (healths, score, deactivations), and the outcome is determined by
the pre-pass snapshot: the enemy takes 50 from the projectile, the player
takes 20 from the enemy, the projectile and the enemy are deactivated, and
the kill score is awarded iff the enemy's snapshot health minus 50 is at most
zero — the same in either processing order. -/
theorem deferred_removal_order_independent
    (env : Env) (st : GState) (e proj : Entity) (j : ℕ)
    (hj : st.entities[j]? = some proj)
    (hpe : checkCollision e.position e.radius proj.position proj.radius)
    (hpp : checkCollision st.player.position st.player.radius e.position e.radius) :
    observables (enemyPlayerHit env (projHit env (st, e) j))
        = observables (projHit env (enemyPlayerHit env (st, e)) j)
    ∧ observables (enemyPlayerHit env (projHit env (st, e) j))
        = (st.player.health - 20,
           st.score + (if e.health - 50 ≤ 0 then e.scoreValue else 0),
           st.entities.set j { proj with active := false },
           e.health - 50,
           false) := by
  by_cases hdead : e.health - 50 ≤ 0 <;>
    simp [projHit, enemyPlayerHit, observables, spawnExplosion, hj, hpe, hpp, hdead]

/-- Closed witness for the order-independence theorem on the concrete duel
state. -/
theorem deferred_removal_order_independent_witness :
    observables (enemyPlayerHit duelEnv (projHit duelEnv (duelState, duelEnemy) 0))
        = observables (projHit duelEnv (enemyPlayerHit duelEnv (duelState, duelEnemy)) 0)
    ∧ observables (enemyPlayerHit duelEnv (projHit duelEnv (duelState, duelEnemy) 0))
        = (80, 100, [{ duelProj with active := false }], 0, false) := by
  have hj : duelState.entities[0]? = some duelProj := by
    simp [duelState]
  have hpe : checkCollision duelEnemy.position duelEnemy.radius
      duelProj.position duelProj.radius := by
    norm_num [checkCollision, duelEnemy, duelProj]
  have hpp : checkCollision duelState.player.position duelState.player.radius
      duelEnemy.position duelEnemy.radius := by
    norm_num [checkCollision, duelState, duelPlayer, duelEnemy]
  have h := deferred_removal_order_independent duelEnv duelState duelEnemy duelProj 0 hj hpe hpp
  refine ⟨h.1, ?_⟩
  rw [h.2]
  norm_num [duelState, duelPlayer, duelEnemy]

/-- Helper: the entity-pass body moves an active enemy projectile straight
down the z axis, keeping its stored velocity. -/
lemma entBody_enemy_shot
    (env : Env) (scrollSpeed dt : ℝ) (st : GState) (i : ℕ) (e : Entity)
    (hget : st.entities[i]? = some e)
    (htype : e.etype = EType.PROJECTILE_Enemy)
    (hact : e.active = true) :
    ∃ e', (entBody env scrollSpeed dt st i).entities[i]? = some e' ∧
        e'.position = ⟨e.position.x, e.position.y, e.position.z - 2.0 * (dt / 16)⟩ ∧
        e'.velocity = e.velocity := by
  have hlen : i < st.entities.length := by
    by_contra hle
    push_neg at hle
    rw [List.getElem?_eq_none hle] at hget
    exact Option.noConfusion hget
  by_cases hcull : e.position.z - 2.0 * (dt / 16) < -40 ∨
      e.position.z - 2.0 * (dt / 16) > 500
  · refine ⟨{ e with position := ⟨e.position.x, e.position.y,
        e.position.z - 2.0 * (dt / 16)⟩, active := false }, ?_, rfl, rfl⟩
    simp only [entBody, hget, hact, moveAndFire, htype]
    simp only [EType.isEnemy]
    simp [hcull, List.getElem?_set_self, hlen]
  · by_cases hcol : checkCollision st.player.position st.player.radius
        ⟨e.position.x, e.position.y, e.position.z - 2.0 * (dt / 16)⟩ e.radius
    · refine ⟨{ e with position := ⟨e.position.x, e.position.y,
          e.position.z - 2.0 * (dt / 16)⟩, active := false }, ?_, rfl, rfl⟩
      simp only [entBody, hget, hact, moveAndFire, htype]
      simp only [EType.isEnemy]
      simp [hcull, hcol, List.getElem?_set_self, hlen, spawnExplosion]
    · refine ⟨{ e with position := ⟨e.position.x, e.position.y,
          e.position.z - 2.0 * (dt / 16)⟩ }, ?_, rfl, rfl⟩
      simp only [entBody, hget, hact, moveAndFire, htype]
      simp only [EType.isEnemy]
      simp [hcull, hcol, List.getElem?_set_self, hlen]

/-- C8: in the per-entity pass, an active enemy projectile moves only in `z`,
by exactly `-2.0 * (dt / 16)`; its `x`, `y` and stored velocity are untouched,
and replacing its stored launch-time velocity by anything else leaves its
motion unchanged. -/
theorem enemy_projectile_motion
    (env : Env) (scrollSpeed dt : ℝ) (st : GState) (i : ℕ) (e : Entity)
    (hget : st.entities[i]? = some e)
    (htype : e.etype = EType.PROJECTILE_Enemy)
    (hact : e.active = true) :
    (∃ e', (entBody env scrollSpeed dt st i).entities[i]? = some e' ∧
        e'.position = ⟨e.position.x, e.position.y, e.position.z - 2.0 * (dt / 16)⟩ ∧
        e'.velocity = e.velocity)
    ∧ ∀ w : Vector3, ∃ e'',
        (entBody env scrollSpeed dt
            { st with entities := st.entities.set i { e with velocity := w } } i).entities[i]?
          = some e'' ∧
        e''.position = ⟨e.position.x, e.position.y, e.position.z - 2.0 * (dt / 16)⟩ := by
  have hlen : i < st.entities.length := by
    by_contra hle
    push_neg at hle
    rw [List.getElem?_eq_none hle] at hget
    exact Option.noConfusion hget
  refine ⟨entBody_enemy_shot env scrollSpeed dt st i e hget htype hact, ?_⟩
  intro w
  have hget' : ({ st with entities := st.entities.set i { e with velocity := w } } :
      GState).entities[i]? = some { e with velocity := w } := by
    simp [List.getElem?_set_self, hlen]
  obtain ⟨e'', h1, h2, _⟩ := entBody_enemy_shot env scrollSpeed dt
    { st with entities := st.entities.set i { e with velocity := w } } i
    { e with velocity := w } hget' htype hact
  exact ⟨e'', h1, h2⟩

/-- Closed witness for the enemy-projectile motion theorem on a concrete
state. -/
theorem enemy_projectile_motion_witness :
    (∃ e', (entBody scenarioEnv 0 16 strayState 0).entities[0]? = some e' ∧
        e'.position = ⟨strayShot.position.x, strayShot.position.y,
          strayShot.position.z - 2.0 * ((16:ℝ) / 16)⟩ ∧
        e'.velocity = strayShot.velocity)
    ∧ ∀ w : Vector3, ∃ e'',
        (entBody scenarioEnv 0 16
            { strayState with entities :=
                strayState.entities.set 0 ({ strayShot with velocity := w }) } 0).entities[0]?
          = some e'' ∧
        e''.position = ⟨strayShot.position.x, strayShot.position.y,
          strayShot.position.z - 2.0 * ((16:ℝ) / 16)⟩ :=
  enemy_projectile_motion scenarioEnv 0 16 strayState 0 strayShot
    (by simp [strayState]) (by simp [strayShot]) (by simp [strayShot])

/-! Trace bookkeeping through the phases of `update`, used to count player
shots. -/

lemma playerShots_append (a b : List GEvent) :
    playerShots (a ++ b) = playerShots a ++ playerShots b := by
  simp [playerShots]

lemma spawnProjectile_false_trace (env : Env) (s t : Vector3) (st : GState) :
    playerShots ((spawnProjectile env s t false st).trace) = playerShots st.trace := by
  simp [spawnProjectile, playerShots, GEvent.isPlayerShot]

lemma moveAndFire_trace (env : Env) (sc dt : ℝ) (st : GState) (e : Entity) :
    playerShots ((moveAndFire env sc dt st e).1.trace) = playerShots st.trace := by
  unfold moveAndFire
  split
  · rfl
  · split
    · rfl
    · split
      · dsimp only
        split
        · exact spawnProjectile_false_trace env _ _ _
        · rfl
      · rfl

lemma projHit_trace (env : Env) (p : GState × Entity) (j : ℕ) :
    playerShots ((projHit env p j).1.trace) = playerShots p.1.trace := by
  unfold projHit
  split
  · rfl
  · split
    · dsimp only
      split
      · simp [spawnExplosion, playerShots, GEvent.isPlayerShot]
      · rfl
    · rfl

lemma enemyPlayerHit_trace (env : Env) (p : GState × Entity) :
    playerShots ((enemyPlayerHit env p).1.trace) = playerShots p.1.trace := by
  unfold enemyPlayerHit
  split <;> rfl

lemma projHit_foldl_trace (env : Env) (l : List ℕ) (p : GState × Entity) :
    playerShots ((l.foldl (projHit env) p).1.trace) = playerShots p.1.trace := by
  induction l generalizing p with
  | nil => rfl
  | cons j t ih => rw [List.foldl_cons, ih, projHit_trace]

lemma entBody_trace (env : Env) (sc dt : ℝ) (st : GState) (i : ℕ) :
    playerShots ((entBody env sc dt st i).trace) = playerShots st.trace := by
  unfold entBody
  split
  · rfl
  · split
    · rfl
    · dsimp only
      split <;> split <;>
        first
        | rw [enemyPlayerHit_trace, projHit_foldl_trace, moveAndFire_trace]
        | exact moveAndFire_trace env sc dt st _
        | (split <;>
            first
            | exact moveAndFire_trace env sc dt st _
            | (split <;> exact moveAndFire_trace env sc dt st _))

lemma entitiesStep_trace (env : Env) (sc dt : ℝ) (st : GState) :
    playerShots ((entitiesStep env sc dt st).trace) = playerShots st.trace := by
  unfold entitiesStep
  exact foldl_preserve (fun s => playerShots s.trace = playerShots st.trace)
    (entBody env sc dt)
    (fun b a hb => by
      show playerShots (entBody env sc dt b a).trace = playerShots st.trace
      rw [entBody_trace]; exact hb)
    (List.range st.entities.length) st rfl

/-! The pre-fire phases do not touch the fields the firing logic reads. -/

lemma preFire_player (env : Env) (mission : MissionData) (width height : ℝ) (st : GState) :
    (spawnStep env mission (thrusterStep env (shipStep width height (reticleStep st)))).player
      = (shipStep width height (reticleStep st)).player := by
  unfold spawnStep thrusterStep spawnEnemy spawnThrusterParticle
  repeat' split
  all_goals rfl

lemma preFire_input (env : Env) (mission : MissionData) (width height : ℝ) (st : GState) :
    (spawnStep env mission (thrusterStep env (shipStep width height (reticleStep st)))).input
      = st.input := by
  unfold spawnStep thrusterStep spawnEnemy spawnThrusterParticle
  repeat' split
  all_goals rfl

lemma preFire_lastFire (env : Env) (mission : MissionData) (width height : ℝ) (st : GState) :
    (spawnStep env mission (thrusterStep env (shipStep width height (reticleStep st)))).lastFireTime
      = st.lastFireTime := by
  unfold spawnStep thrusterStep spawnEnemy spawnThrusterParticle
  repeat' split
  all_goals rfl

lemma preFire_trace (env : Env) (mission : MissionData) (width height : ℝ) (st : GState) :
    (spawnStep env mission (thrusterStep env (shipStep width height (reticleStep st)))).trace
      = st.trace := by
  unfold spawnStep thrusterStep spawnEnemy spawnThrusterParticle
  repeat' split
  all_goals rfl

/-! Characterization of the firing gate. -/

lemma fireStep_fire (env : Env) (width height : ℝ) (st : GState)
    (h : env.now - st.lastFireTime > FIRE_RATE) :
    fireStep env width height st =
      { spawnProjectile env st.player.position
          (unprojectVector st.input.x st.input.y AIM_DISTANCE width height) true st with
        lastFireTime := env.now } := by
  unfold fireStep
  rw [if_pos]
  exact ⟨by simp, h⟩

lemma fireStep_hold (env : Env) (width height : ℝ) (st : GState)
    (h : ¬env.now - st.lastFireTime > FIRE_RATE) :
    fireStep env width height st = st := by
  unfold fireStep
  rw [if_neg]
  intro hc
  exact h hc.2

/-- C6 (amended to the code's strict gate): in every simulation step, exactly
one player projectile is spawned when strictly more than `FIRE_RATE` (100) ms
of wall time have passed since the last shot, and none otherwise, regardless
of the keyboard state; the shot starts at the moved ship position, targets the
unprojection of the raw input at world Z 400, and carries velocity
`projVel start aim 6.0`, the speed-6 normalized direction toward the aim
point. -/
theorem autofire_rate_gate (env : Env) (mission : MissionData)
    (width height dt : ℝ) (st : GState) :
    playerShots ((update env mission width height dt st).trace) =
      playerShots st.trace ++
        (if env.now - st.lastFireTime > FIRE_RATE then
          [GEvent.shot true (shipStep width height (reticleStep st)).player.position
            (unprojectVector st.input.x st.input.y AIM_DISTANCE width height)
            (projVel (shipStep width height (reticleStep st)).player.position
              (unprojectVector st.input.x st.input.y AIM_DISTANCE width height) 6.0)]
        else []) := by
  unfold update
  dsimp only
  show playerShots ((particlesStep dt (compactStep (entitiesStep env _ dt
    (fireStep env width height (spawnStep env mission
      (thrusterStep env (shipStep width height (reticleStep st)))))))).trace) = _
  have hpart : ∀ x : GState, (particlesStep dt (compactStep x)).trace = x.trace := fun _ => rfl
  rw [hpart, entitiesStep_trace]
  by_cases hfire : env.now - st.lastFireTime > FIRE_RATE
  · rw [if_pos hfire]
    rw [fireStep_fire env width height _ (by rw [preFire_lastFire]; exact hfire)]
    show playerShots ((spawnProjectile env _ _ true _).trace) = _
    unfold spawnProjectile
    dsimp only
    rw [playerShots_append, preFire_trace, preFire_player, preFire_input]
    congr 1
  · rw [if_neg hfire]
    rw [fireStep_hold env width height _ (by rw [preFire_lastFire]; exact hfire)]
    rw [preFire_trace]
    simp

/-- C6 counterexample to the claim as stated: with exactly 100 ms of wall
time elapsed since the previous shot (`now - lastFireTime = FIRE_RATE`), the
step spawns no player projectile, because the source gate is strict. -/
theorem autofire_boundary_counterexample :
    boundaryEnv.now - boundaryG.lastFireTime = FIRE_RATE ∧
    playerShots ((update boundaryEnv scenarioMission 1000 1000 16 boundaryG).trace) = [] := by
  refine ⟨by norm_num [boundaryEnv, boundaryG, FIRE_RATE], ?_⟩
  unfold update
  dsimp only
  show playerShots ((particlesStep 16 (compactStep (entitiesStep boundaryEnv _ 16
    (fireStep boundaryEnv 1000 1000 (spawnStep boundaryEnv scenarioMission
      (thrusterStep boundaryEnv (shipStep 1000 1000 (reticleStep boundaryG)))))))).trace) = []
  have hpart : ∀ x : GState, (particlesStep (16:ℝ) (compactStep x)).trace = x.trace :=
    fun _ => rfl
  rw [hpart, entitiesStep_trace,
    fireStep_hold boundaryEnv 1000 1000 _
      (by rw [preFire_lastFire]; norm_num [boundaryEnv, boundaryG, FIRE_RATE]),
    preFire_trace]
  rfl

/-! Score and health bookkeeping through the phases of `update`. -/

lemma scoreInv_congr {s s' : GState} (he : s'.entities = s.entities)
    (h : scoreInv s) : scoreInv s' := by
  intro x hx
  rw [he] at hx
  exact h x hx

lemma moveAndFire_inv (env : Env) (sc dt : ℝ) (st : GState) (e : Entity)
    (h : scoreInv st) :
    scoreInv (moveAndFire env sc dt st e).1 ∧
    (moveAndFire env sc dt st e).1.score = st.score ∧
    (moveAndFire env sc dt st e).2.scoreValue = e.scoreValue ∧
    (moveAndFire env sc dt st e).1.player.health = st.player.health := by
  unfold moveAndFire
  split
  · exact ⟨h, rfl, rfl, rfl⟩
  · split
    · exact ⟨h, rfl, rfl, rfl⟩
    · split
      · dsimp only
        split
        · refine ⟨?_, rfl, rfl, rfl⟩
          intro x hx
          simp only [spawnProjectile] at hx
          rcases List.mem_append.mp hx with hx | hx
          · exact h x hx
          · rw [List.mem_singleton.mp hx]
            exact le_refl 0
        · exact ⟨h, rfl, rfl, rfl⟩
      · exact ⟨h, rfl, rfl, rfl⟩

lemma projHit_inv (env : Env) (p : GState × Entity) (j : ℕ)
    (h : scoreInv p.1) (hv : 0 ≤ p.2.scoreValue) :
    (scoreInv (projHit env p j).1 ∧ 0 ≤ (projHit env p j).2.scoreValue) ∧
    p.1.score ≤ (projHit env p j).1.score ∧
    (projHit env p j).1.player.health = p.1.player.health := by
  unfold projHit
  split
  · exact ⟨⟨h, hv⟩, le_refl _, rfl⟩
  next proj heq =>
    split
    · dsimp only
      have hset : scoreInv { p.1 with
          entities := p.1.entities.set j { proj with active := false } } := by
        intro x hx
        rcases List.mem_or_eq_of_mem_set hx with hx | hx
        · exact h x hx
        · rw [hx]
          exact h proj (List.getElem?_mem heq)
      split
      · refine ⟨⟨?_, hv⟩, ?_, rfl⟩
        · exact fun x hx => hset x hx
        · dsimp only [spawnExplosion]
          linarith
      · exact ⟨⟨hset, hv⟩, le_refl _, rfl⟩
    · exact ⟨⟨h, hv⟩, le_refl _, rfl⟩

lemma projHit_foldl_inv (env : Env) (l : List ℕ) (p : GState × Entity)
    (h : scoreInv p.1) (hv : 0 ≤ p.2.scoreValue) :
    (scoreInv (l.foldl (projHit env) p).1 ∧ 0 ≤ (l.foldl (projHit env) p).2.scoreValue) ∧
    p.1.score ≤ (l.foldl (projHit env) p).1.score ∧
    (l.foldl (projHit env) p).1.player.health = p.1.player.health := by
  induction l generalizing p with
  | nil => exact ⟨⟨h, hv⟩, le_refl _, rfl⟩
  | cons j t ih =>
    rw [List.foldl_cons]
    obtain ⟨⟨h1, h2⟩, h3, h4⟩ := projHit_inv env p j h hv
    obtain ⟨hh, hs, hp⟩ := ih (projHit env p j) h1 h2
    exact ⟨hh, le_trans h3 hs, by rw [hp, h4]⟩

lemma enemyPlayerHit_inv (env : Env) (p : GState × Entity) :
    (enemyPlayerHit env p).1.entities = p.1.entities ∧
    (enemyPlayerHit env p).1.score = p.1.score ∧
    (enemyPlayerHit env p).1.player.health ≤ p.1.player.health ∧
    (enemyPlayerHit env p).2.scoreValue = p.2.scoreValue := by
  unfold enemyPlayerHit
  split
  · exact ⟨rfl, rfl, by dsimp only [spawnExplosion]; linarith, rfl⟩
  · exact ⟨rfl, rfl, le_refl _, rfl⟩

lemma entBody_inv (env : Env) (sc dt : ℝ) (st : GState) (i : ℕ)
    (h : scoreInv st) :
    scoreInv (entBody env sc dt st i) ∧
    st.score ≤ (entBody env sc dt st i).score ∧
    (entBody env sc dt st i).player.health ≤ st.player.health := by
  unfold entBody
  split
  · exact ⟨h, le_refl _, le_refl _⟩
  next e heq =>
    split
    · exact ⟨h, le_refl _, le_refl _⟩
    · dsimp only
      obtain ⟨hmf1, hmf2, hmf3, hmf4⟩ := moveAndFire_inv env sc dt st e h
      have he : 0 ≤ e.scoreValue := h e (List.getElem?_mem heq)
      have hv2 : 0 ≤ (moveAndFire env sc dt st e).2.scoreValue := by
        rw [hmf3]; exact he
      have hfin : ∀ q : GState × Entity, scoreInv q.1 → 0 ≤ q.2.scoreValue →
          st.score ≤ q.1.score → q.1.player.health ≤ st.player.health →
          scoreInv { q.1 with entities := q.1.entities.set i q.2 } ∧
          st.score ≤ ({ q.1 with entities := q.1.entities.set i q.2 } : GState).score ∧
          ({ q.1 with entities := q.1.entities.set i q.2 } : GState).player.health
            ≤ st.player.health := by
        intro q h1 h2 h3 h4
        refine ⟨?_, h3, h4⟩
        intro x hx
        rcases List.mem_or_eq_of_mem_set hx with hx | hx
        · exact h1 x hx
        · rw [hx]; exact h2
      set MF := moveAndFire env sc dt st e with hMF
      set E2 := (if MF.2.position.z < -40 ∨ MF.2.position.z > 500 then
          { MF.2 with active := false } else MF.2 : Entity) with hE2
      have hE2v : E2.scoreValue = MF.2.scoreValue := by
        rw [hE2]; split <;> rfl
      have hvE2 : 0 ≤ E2.scoreValue := by rw [hE2v]; exact hv2
      split
      · -- enemy collision block
        obtain ⟨⟨hf1, hfv⟩, hfs, hfh⟩ :=
          projHit_foldl_inv env (playerProjFilter MF.1.entities) (MF.1, E2) hmf1 hvE2
        obtain ⟨hep1, hep2, hep3, hep4⟩ := enemyPlayerHit_inv env
          ((playerProjFilter MF.1.entities).foldl (projHit env) (MF.1, E2))
        apply hfin
        · exact scoreInv_congr hep1 hf1
        · rw [hep4]; exact hfv
        · rw [hep2, ← hmf2]; exact hfs
        · rw [← hmf4]; exact le_trans hep3 (le_of_eq hfh)
      · split
        · split
          · -- enemy projectile hits the player
            apply hfin
            · exact fun x hx => hmf1 x hx
            · exact hvE2
            · exact le_of_eq hmf2.symm
            · show MF.1.player.health - 10 ≤ st.player.health
              rw [hmf4] at *
              linarith
          · exact hfin (MF.1, E2) hmf1 hvE2 (le_of_eq hmf2.symm) (le_of_eq hmf4)
        · exact hfin (MF.1, E2) hmf1 hvE2 (le_of_eq hmf2.symm) (le_of_eq hmf4)

lemma entitiesStep_inv (env : Env) (sc dt : ℝ) (st : GState) (h : scoreInv st) :
    scoreInv (entitiesStep env sc dt st) ∧
    st.score ≤ (entitiesStep env sc dt st).score ∧
    (entitiesStep env sc dt st).player.health ≤ st.player.health := by
  unfold entitiesStep
  exact foldl_preserve
    (fun s => scoreInv s ∧ st.score ≤ s.score ∧ s.player.health ≤ st.player.health)
    (entBody env sc dt)
    (fun b a hb => by
      have hb' : scoreInv b ∧ st.score ≤ b.score ∧ b.player.health ≤ st.player.health := hb
      obtain ⟨h1, h2, h3⟩ := hb'
      obtain ⟨g1, g2, g3⟩ := entBody_inv env sc dt b a h1
      exact ⟨g1, le_trans h2 g2, le_trans g3 h3⟩)
    (List.range st.entities.length) st ⟨h, le_refl _, le_refl _⟩

lemma thrusterStep_facts (env : Env) (st : GState) :
    (thrusterStep env st).entities = st.entities ∧
    (thrusterStep env st).score = st.score ∧
    (thrusterStep env st).player = st.player ∧
    (thrusterStep env st).lastFireTime = st.lastFireTime := by
  unfold thrusterStep spawnThrusterParticle
  split <;> exact ⟨rfl, rfl, rfl, rfl⟩

lemma spawnStep_inv (env : Env) (mission : MissionData) (st : GState)
    (h : scoreInv st) :
    scoreInv (spawnStep env mission st) ∧
    (spawnStep env mission st).score = st.score ∧
    (spawnStep env mission st).player = st.player := by
  unfold spawnStep spawnEnemy
  split
  · split
    · refine ⟨?_, rfl, rfl⟩
      intro x hx
      rcases List.mem_append.mp hx with hx | hx
      · exact h x hx
      · rw [List.mem_singleton.mp hx]
        norm_num [mkEnemy]
    · exact ⟨h, rfl, rfl⟩
  · exact ⟨h, rfl, rfl⟩

lemma fireStep_inv (env : Env) (width height : ℝ) (st : GState)
    (h : scoreInv st) :
    scoreInv (fireStep env width height st) ∧
    (fireStep env width height st).score = st.score ∧
    (fireStep env width height st).player = st.player := by
  unfold fireStep spawnProjectile
  dsimp only
  split
  · refine ⟨?_, rfl, rfl⟩
    intro x hx
    rcases List.mem_append.mp hx with hx | hx
    · exact h x hx
    · rw [List.mem_singleton.mp hx]
      norm_num [mkProjectile]
  · exact ⟨h, rfl, rfl⟩

lemma compactStep_inv (st : GState) (h : scoreInv st) :
    scoreInv (compactStep st) ∧
    (compactStep st).score = st.score ∧
    (compactStep st).player = st.player := by
  refine ⟨?_, rfl, rfl⟩
  intro x hx
  exact h x (List.mem_filter.mp hx).1

/-- One `update` preserves the score invariant, never decreases the score and
never increases the player's health. -/
lemma update_inv (env : Env) (mission : MissionData) (width height dt : ℝ)
    (st : GState) (h : scoreInv st) :
    scoreInv (update env mission width height dt st) ∧
    st.score ≤ (update env mission width height dt st).score ∧
    (update env mission width height dt st).player.health ≤ st.player.health := by
  unfold update
  dsimp only
  have h2 : scoreInv (shipStep width height (reticleStep st)) := fun x hx => h x hx
  obtain ⟨ht1, ht2, ht3, _⟩ := thrusterStep_facts env (shipStep width height (reticleStep st))
  have h3 := scoreInv_congr ht1 h2
  obtain ⟨hs1, hs2, hs3⟩ := spawnStep_inv env mission _ h3
  obtain ⟨hf1, hf2, hf3⟩ := fireStep_inv env width height _ hs1
  obtain ⟨he1, he2, he3⟩ := entitiesStep_inv env _ dt _ hf1
  obtain ⟨hc1, hc2, hc3⟩ := compactStep_inv _ he1
  have hps : ∀ x : GState, (particlesStep dt x).score = x.score := fun _ => rfl
  have hph : ∀ x : GState, (particlesStep dt x).player = x.player := fun _ => rfl
  refine ⟨fun x hx => hc1 x hx, ?_, ?_⟩
  · rw [hps, hc2]
    refine le_trans (le_of_eq ?_) he2
    rw [hf2, hs2, ht2]
    rfl
  · rw [hph, hc3]
    refine le_trans he3 ?_
    rw [hf3, hs3, ht3]
    exact le_refl _

/-- C9: score monotonicity: across any sequence of simulation steps from a
state whose entities all carry non-negative `scoreValue` (as every entity the
core creates does), the score never decreases, and the invariant is
maintained. -/
theorem score_monotonic (mission : MissionData) (width height : ℝ)
    (fs : List (Env × ℝ)) (st : GState) (h : scoreInv st) :
    st.score ≤ (runSteps mission width height fs st).score ∧
    scoreInv (runSteps mission width height fs st) := by
  unfold runSteps
  have := foldl_preserve (fun s => scoreInv s ∧ st.score ≤ s.score)
    (fun s fe => update fe.1 mission width height fe.2 s)
    (fun b a hb => by
      have hb' : scoreInv b ∧ st.score ≤ b.score := hb
      obtain ⟨g1, g2, _⟩ := update_inv a.1 mission width height a.2 b hb'.1
      exact ⟨g1, le_trans hb'.2 g2⟩)
    fs st ⟨h, le_refl _⟩
  exact ⟨this.2, this.1⟩

/-- Closed witness for score monotonicity from the quiet concrete state. -/
theorem score_monotonic_witness :
    boundaryG.score ≤
      (runSteps scenarioMission 1000 1000 [(boundaryEnv, 16)] boundaryG).score ∧
    scoreInv (runSteps scenarioMission 1000 1000 [(boundaryEnv, 16)] boundaryG) :=
  score_monotonic scenarioMission 1000 1000 [(boundaryEnv, 16)] boundaryG
    (by intro x hx; simp [boundaryG] at hx)

/-! Player health is never increased by the simulation step. -/

lemma projHit_health (env : Env) (p : GState × Entity) (j : ℕ) :
    (projHit env p j).1.player.health = p.1.player.health := by
  unfold projHit
  split
  · rfl
  · split
    · dsimp only
      split <;> rfl
    · rfl

lemma projHit_foldl_health (env : Env) (l : List ℕ) (p : GState × Entity) :
    (l.foldl (projHit env) p).1.player.health = p.1.player.health := by
  induction l generalizing p with
  | nil => rfl
  | cons j t ih => rw [List.foldl_cons, ih, projHit_health]

lemma enemyPlayerHit_health (env : Env) (p : GState × Entity) :
    (enemyPlayerHit env p).1.player.health ≤ p.1.player.health := by
  unfold enemyPlayerHit
  split
  · dsimp only [spawnExplosion]
    linarith
  · exact le_refl _

lemma moveAndFire_health (env : Env) (sc dt : ℝ) (st : GState) (e : Entity) :
    (moveAndFire env sc dt st e).1.player.health = st.player.health := by
  unfold moveAndFire
  split
  · rfl
  · split
    · rfl
    · split
      · dsimp only
        split <;> rfl
      · rfl

lemma entBody_health (env : Env) (sc dt : ℝ) (st : GState) (i : ℕ) :
    (entBody env sc dt st i).player.health ≤ st.player.health := by
  unfold entBody
  split
  · exact le_refl _
  next e heq =>
    split
    · exact le_refl _
    · dsimp only
      have hmf := moveAndFire_health env sc dt st e
      set MF := moveAndFire env sc dt st e with hMF
      set E2 := (if MF.2.position.z < -40 ∨ MF.2.position.z > 500 then
          { MF.2 with active := false } else MF.2 : Entity) with hE2
      split
      · refine le_trans (enemyPlayerHit_health env _) ?_
        rw [projHit_foldl_health]
        exact le_of_eq hmf
      · split
        · split
          · show MF.1.player.health - 10 ≤ st.player.health
            rw [hmf]
            linarith
          · exact le_of_eq hmf
        · exact le_of_eq hmf

lemma entitiesStep_health (env : Env) (sc dt : ℝ) (st : GState) :
    (entitiesStep env sc dt st).player.health ≤ st.player.health := by
  unfold entitiesStep
  exact foldl_preserve (fun s => s.player.health ≤ st.player.health)
    (entBody env sc dt)
    (fun b a hb => by
      have hb' : b.player.health ≤ st.player.health := hb
      exact le_trans (entBody_health env sc dt b a) hb')
    (List.range st.entities.length) st (le_refl _)

lemma spawnStep_player (env : Env) (mission : MissionData) (st : GState) :
    (spawnStep env mission st).player = st.player := by
  unfold spawnStep spawnEnemy
  repeat' split
  all_goals rfl

lemma fireStep_player (env : Env) (width height : ℝ) (st : GState) :
    (fireStep env width height st).player = st.player := by
  unfold fireStep spawnProjectile
  dsimp only
  split <;> rfl

/-- One `update` never increases the player's health. -/
lemma update_health (env : Env) (mission : MissionData) (width height dt : ℝ)
    (st : GState) :
    (update env mission width height dt st).player.health ≤ st.player.health := by
  unfold update
  dsimp only
  have hps : ∀ x : GState, (particlesStep dt x).player = x.player := fun _ => rfl
  have hcs : ∀ x : GState, (compactStep x).player = x.player := fun _ => rfl
  rw [hps, hcs]
  refine le_trans (entitiesStep_health env _ dt _) ?_
  rw [fireStep_player, spawnStep_player, (thrusterStep_facts env _).2.2.1]
  exact le_refl _

/-! Characterization of one `animate` call. -/

/-- An unpaused `animate` call: the new simulation state is `frameG`, the
events appended are the score change (if any), the health change (if any) and
the game-over (iff health dropped to or below zero), the callback is
rescheduled exactly when the player is still alive, and exactly one render and
one simulation step run. -/
lemma animate_unpaused_spec (env : Env) (mission : MissionData)
    (width height time : ℝ) (es : EngState) :
    (animate env mission width height false time es).g
        = frameG env mission width height time es
    ∧ (animate env mission width height false time es).events
        = es.events
          ++ (if (frameG env mission width height time es).score ≠ es.lastReportedScore
              then [Ev.scoreChanged (frameG env mission width height time es).score] else [])
          ++ (if ⌈(frameG env mission width height time es).player.health⌉ ≠ es.lastReportedHealth
              then [Ev.healthChanged ⌈(frameG env mission width height time es).player.health⌉]
              else [])
          ++ (if (frameG env mission width height time es).player.health > 0
              then [] else [Ev.gameOver (frameG env mission width height time es).score])
    ∧ (animate env mission width height false time es).scheduled
        = (if (frameG env mission width height time es).player.health > 0 then true else false)
    ∧ (animate env mission width height false time es).renders = es.renders + 1
    ∧ (animate env mission width height false time es).updates = es.updates + 1 := by
  unfold animate frameG frameDelta
  dsimp only
  split_ifs <;> simp_all

/-- A paused `animate` call emits nothing, does not run the simulation, and
reschedules. -/
lemma animate_paused_spec (env : Env) (mission : MissionData)
    (width height time : ℝ) (es : EngState) :
    (animate env mission width height true time es).events = es.events
    ∧ (animate env mission width height true time es).g = es.g
    ∧ (animate env mission width height true time es).scheduled = true
    ∧ (animate env mission width height true time es).updates = es.updates := by
  unfold animate
  dsimp only
  norm_num

/-- Once no callback is scheduled, the loop is inert: no render, no update,
no event, on any further frames. -/
lemma runLoop_unscheduled (fs : List Frame) (es : EngState)
    (h : es.scheduled = false) : runLoop fs es = es := by
  unfold runLoop
  induction fs with
  | nil => rfl
  | cons f t ih =>
    rw [List.foldl_cons, show loopStep f es = es from by
      unfold loopStep
      rw [if_neg]
      rw [h]
      simp]
    exact ih

/-! Concrete evaluation of one fatal frame: the scenario state has the enemy
ramming the player, dropping health from 10 to -10. -/

lemma unproject_zero_x (normY z w h : ℝ) :
    (unprojectVector 0 normY z w h).x = 0 := by
  simp only [unprojectVector, CAMERA_POS]
  norm_num

lemma unproject_center_y (z w h : ℝ) :
    (unprojectVector 0 0 z w h).y
      = (z - CAMERA_POS.z) * Real.tan CAMERA_PITCH + CAMERA_POS.y := by
  have hc := cos_pitch_ne_zero
  have hsc := sin_sq_add_cos_sq_pitch
  simp only [unprojectVector]
  norm_num
  rw [Real.tan_eq_sin_div_cos]
  field_simp
  ring_nf
  left
  linear_combination (z - CAMERA_POS.z) * hsc

lemma shipStep_center (w h : ℝ) (st : GState)
    (hix : st.input.x = 0) (hiy : st.input.y = 0)
    (hpx : st.player.position.x = 0) (hpy : st.player.position.y = 0) :
    (shipStep w h st).player.position.x = 0 ∧
    -0.4 ≤ (shipStep w h st).player.position.y ∧
    (shipStep w h st).player.position.y ≤ 1.6 := by
  unfold shipStep
  dsimp only
  rw [hix, hiy, hpx, hpy, unproject_zero_x, unproject_center_y]
  set xL := max 10 ((unprojectVector 1 0 0 w h).x - SHIP_MARGIN) with hxl
  set yM := (unprojectVector 0 (-1) 0 w h).y - 3 with hym
  have h10 : (10:ℝ) ≤ xL := le_max_left _ _
  have ht1 := tan_pitch_nonneg
  have ht2 := tan_pitch_lt
  set t := Real.tan CAMERA_PITCH with htdef
  set m := ((0:ℝ) - CAMERA_POS.z) * t + CAMERA_POS.y with hmdef
  have hm8 : m = 30 * t + 8 := by
    rw [hmdef]
    norm_num [CAMERA_POS]
  have hmu : m ≤ 20 := by rw [hm8]; nlinarith
  set T := max (FLOOR_Y + 1) (min yM m) with hT
  have hT1 : (-5:ℝ) ≤ T := by
    rw [hT]
    refine le_trans (by norm_num [FLOOR_Y]) (le_max_left _ _)
  have hT2 : T ≤ 20 := by
    rw [hT]
    refine max_le (by norm_num [FLOOR_Y]) (le_trans (min_le_right _ _) hmu)
  refine ⟨?_, ?_, ?_⟩
  · show 0 + (max (-xL) (min xL 0) - 0) * SHIP_LAG = 0
    rw [min_eq_right (by linarith), max_eq_right (by linarith)]
    norm_num
  · show -0.4 ≤ 0 + (T - 0) * SHIP_LAG
    rw [SHIP_LAG]
    nlinarith
  · show 0 + (T - 0) * SHIP_LAG ≤ 1.6
    rw [SHIP_LAG]
    nlinarith

/-- The entity-pass body for an enemy that does not fire, is not culled, and
collides with the player: the player takes 20 damage and the score is
unchanged. -/
lemma entBody_enemy_rams (env : Env) (sc dt : ℝ) (st : GState) (i : ℕ) (e : Entity)
    (hget : st.entities[i]? = some e)
    (htype : e.etype = EType.ENEMY_Interceptor)
    (hact : e.active = true)
    (hfire : ¬(env.rand st.rng < 0.015 ∧ e.position.z - sc > 50 ∧ e.position.z - sc < 300))
    (hcull : ¬(e.position.z - sc < -40 ∨ e.position.z - sc > 500))
    (hnoproj : playerProjFilter st.entities = [])
    (hcol : checkCollision st.player.position st.player.radius
        ⟨e.position.x + Real.sin ((e.position.z - sc) * 0.02 + e.id) * 0.3,
         e.position.y, e.position.z - sc⟩ e.radius) :
    (entBody env sc dt st i).player.health = st.player.health - 20 ∧
    (entBody env sc dt st i).score = st.score := by
  unfold entBody
  simp only [hget, hact, moveAndFire, htype]
  simp only [EType.isEnemy]
  simp [hfire, hcull, hnoproj, hcol, enemyPlayerHit, spawnExplosion]

/-- One zero-delta step on the scenario state: the enemy rams the player,
health drops from 10 to -10, the score stays 0. -/
lemma scenario_update :
    (update scenarioEnv scenarioMission 1000 1000 0 scenarioG).player.health = -10 ∧
    (update scenarioEnv scenarioMission 1000 1000 0 scenarioG).score = 0 := by
  unfold update
  dsimp only
  set s2 := shipStep 1000 1000 (reticleStep scenarioG) with hs2def
  have hth : thrusterStep scenarioEnv s2
      = spawnThrusterParticle scenarioEnv s2.player.position s2.player.rotation s2 := by
    unfold thrusterStep
    rw [if_pos]
    show jsMod (0:ℝ) 30 < 16
    rw [jsMod, jsTrunc]
    norm_num
  rw [hth]
  set s3 := spawnThrusterParticle scenarioEnv s2.player.position s2.player.rotation s2
    with hs3def
  have hsp : spawnStep scenarioEnv scenarioMission s3 = s3 := by
    unfold spawnStep
    rw [if_neg]
    show ¬(0:ℝ) > 1500
    norm_num
  rw [hsp]
  have hfs : fireStep scenarioEnv 1000 1000 s3 = s3 :=
    fireStep_hold scenarioEnv 1000 1000 s3
      (by show ¬(0:ℝ) - 0 > FIRE_RATE; norm_num [FIRE_RATE])
  rw [hfs]
  have hSC : BASE_SCROLL_SPEED * scenarioMission.speedModifier * ((0:ℝ) / 16) = 0 := by
    norm_num
  have hcol : checkCollision s3.player.position s3.player.radius
      ⟨scenarioEnemy.position.x
          + Real.sin ((scenarioEnemy.position.z
              - BASE_SCROLL_SPEED * scenarioMission.speedModifier * ((0:ℝ) / 16)) * 0.02
            + scenarioEnemy.id) * 0.3,
        scenarioEnemy.position.y,
        scenarioEnemy.position.z
          - BASE_SCROLL_SPEED * scenarioMission.speedModifier * ((0:ℝ) / 16)⟩
      scenarioEnemy.radius := by
    obtain ⟨hx, hyl, hyu⟩ := shipStep_center 1000 1000 (reticleStep scenarioG)
      rfl rfl rfl rfl
    rw [← hs2def] at hx hyl hyu
    show checkCollision s2.player.position 3
      ⟨0 + Real.sin ((3 - BASE_SCROLL_SPEED * scenarioMission.speedModifier * ((0:ℝ) / 16))
          * 0.02 + 0) * 0.3, 0,
        3 - BASE_SCROLL_SPEED * scenarioMission.speedModifier * ((0:ℝ) / 16)⟩ 4
    rw [hSC]
    unfold checkCollision
    dsimp only
    have hz : s2.player.position.z = 0 := rfl
    have hsin1 := Real.neg_one_le_sin (((3:ℝ) - 0) * 0.02 + 0)
    have hsin2 := Real.sin_le_one (((3:ℝ) - 0) * 0.02 + 0)
    rw [hx, hz]
    nlinarith
  obtain ⟨hbh, hbs⟩ := entBody_enemy_rams scenarioEnv
    (BASE_SCROLL_SPEED * scenarioMission.speedModifier * ((0:ℝ) / 16)) 0 s3 0 scenarioEnemy
    rfl rfl rfl
    (by
      intro hcon
      have h1 : (1:ℝ) < 0.015 := hcon.1
      norm_num at h1)
    (by
      rw [hSC]
      show ¬((3:ℝ) - 0 < -40 ∨ (3:ℝ) - 0 > 500)
      norm_num)
    rfl
    hcol
  have hun : entitiesStep scenarioEnv
      (BASE_SCROLL_SPEED * scenarioMission.speedModifier * ((0:ℝ) / 16)) 0 s3
      = entBody scenarioEnv
          (BASE_SCROLL_SPEED * scenarioMission.speedModifier * ((0:ℝ) / 16)) 0 s3 0 := by
    unfold entitiesStep
    rw [show s3.entities.length = 1 from rfl]
    rfl
  have hps : ∀ x : GState, (particlesStep (0:ℝ) (compactStep x)).player = x.player :=
    fun _ => rfl
  have hsc2 : ∀ x : GState, (particlesStep (0:ℝ) (compactStep x)).score = x.score :=
    fun _ => rfl
  rw [hun] at *
  constructor
  · rw [hps, hbh]
    show (10:ℝ) - 20 = -10
    norm_num
  · rw [hsc2, hbs]
    rfl

/-- The first frame on the scenario loop state runs `update` with a zero
delta on `scenarioG`. -/
lemma scenario_frameG :
    frameG scenarioEnv scenarioMission 1000 1000 5 { scenarioES with scheduled := false }
      = update scenarioEnv scenarioMission 1000 1000 0 scenarioG := by
  unfold frameG frameDelta
  rw [if_pos (show ({ scenarioES with scheduled := false } : EngState).lastTime = 0 from rfl)]
  rw [show (5:ℝ) - 5 = 0 from by norm_num]
  rw [show ({ scenarioES with scheduled := false } : EngState).g = scenarioG from rfl]
  rw [show scenarioG.gameTime + (0:ℝ) = scenarioG.gameTime from add_zero _]

/-- The fatal frame on the scenario state: one render, one update, a health
notification carrying -10, one game-over carrying score 0, and no rescheduled
callback. -/
lemma scenario_run :
    (loopStep scenarioFrame scenarioES).events
        = [Ev.healthChanged (-10), Ev.gameOver 0]
    ∧ (loopStep scenarioFrame scenarioES).scheduled = false
    ∧ (loopStep scenarioFrame scenarioES).renders = 1
    ∧ (loopStep scenarioFrame scenarioES).updates = 1 := by
  have hloop : loopStep scenarioFrame scenarioES
      = animate scenarioEnv scenarioMission 1000 1000 false 5
          { scenarioES with scheduled := false } := by
    unfold loopStep
    rw [if_pos (show scenarioES.scheduled = true from rfl)]
    rfl
  obtain ⟨hg, hev, hsch, hren, hupd⟩ := animate_unpaused_spec scenarioEnv scenarioMission
    1000 1000 5 { scenarioES with scheduled := false }
  obtain ⟨hH, hS⟩ := scenario_update
  rw [scenario_frameG] at hg hev hsch
  rw [hH, hS] at hev
  rw [hH] at hsch
  have hceil : (⌈(-10:ℝ)⌉ : ℤ) = -10 := by
    rw [show (-10:ℝ) = ((-10:ℤ):ℝ) from by norm_num]
    exact Int.ceil_intCast _
  rw [hceil] at hev
  rw [hloop]
  refine ⟨?_, ?_, ?_, ?_⟩
  · rw [hev]
    rw [if_neg (show ¬((0:ℝ) ≠ ({ scenarioES with scheduled := false } : EngState).lastReportedScore)
        from by show ¬((0:ℝ) ≠ 0); norm_num)]
    rw [if_pos (show (-10:ℤ) ≠ ({ scenarioES with scheduled := false } : EngState).lastReportedHealth
        from by show (-10:ℤ) ≠ 10; norm_num)]
    rw [if_neg (show ¬((-10:ℝ) > 0) from by norm_num)]
    rfl
  · rw [hsch]
    rw [if_neg (show ¬((-10:ℝ) > 0) from by norm_num)]
  · rw [hren]
    rfl
  · rw [hupd]
    rfl

/-- C3 (amended to the code's behavior): on the frame where health first
reaches zero or below, the loop emits exactly one game-over notification
carrying that frame's score and schedules no further callback; while the
player is alive no game-over is emitted and the loop reschedules; and once
unscheduled the loop is inert — no render, no simulation step, no further
events (so rendering does NOT continue after game over). -/
theorem terminal_semantics (env : Env) (mission : MissionData)
    (width height time : ℝ) (es : EngState) (fs : List Frame) :
    ((frameG env mission width height time es).player.health ≤ 0 →
      gameOvers (animate env mission width height false time es).events
          = gameOvers es.events
            ++ [Ev.gameOver (frameG env mission width height time es).score]
        ∧ (animate env mission width height false time es).scheduled = false)
    ∧ ((frameG env mission width height time es).player.health > 0 →
      gameOvers (animate env mission width height false time es).events
          = gameOvers es.events
        ∧ (animate env mission width height false time es).scheduled = true)
    ∧ (es.scheduled = false → runLoop fs es = es) := by
  obtain ⟨hg, hev, hsch, hren, hupd⟩ := animate_unpaused_spec env mission width height time es
  refine ⟨?_, ?_, fun h => runLoop_unscheduled fs es h⟩
  · intro hdead
    have hnot : ¬((frameG env mission width height time es).player.health > 0) := by linarith
    constructor
    · rw [hev, if_neg hnot]
      split_ifs <;> simp [gameOvers, Ev.isGameOver, List.filter_append]
    · rw [hsch, if_neg hnot]
  · intro halive
    constructor
    · rw [hev, if_pos halive]
      split_ifs <;> simp [gameOvers, Ev.isGameOver, List.filter_append]
    · rw [hsch, if_pos halive]

/-- Closed witness for the terminal-semantics theorem on the fatal scenario
frame. -/
theorem terminal_semantics_witness :
    gameOvers (animate scenarioEnv scenarioMission 1000 1000 false 5
        { scenarioES with scheduled := false }).events = [Ev.gameOver 0]
    ∧ (animate scenarioEnv scenarioMission 1000 1000 false 5
        { scenarioES with scheduled := false }).scheduled = false := by
  have h := (terminal_semantics scenarioEnv scenarioMission 1000 1000 5
    { scenarioES with scheduled := false } []).1
  rw [scenario_frameG] at h
  obtain ⟨hH, hS⟩ := scenario_update
  have h2 := h (by rw [hH]; norm_num)
  rw [hS] at h2
  refine ⟨?_, h2.2⟩
  rw [h2.1]
  rfl

/-- C3 counterexample to the claim as stated: after the frame on which health
reached -10 (one render, one update, the game-over), a further host frame
performs no render at all — rendering does not continue each frame. -/
theorem gameover_rendering_counterexample :
    (runLoop [scenarioFrame, scenarioFrame2] scenarioES).renders = 1
    ∧ (runLoop [scenarioFrame, scenarioFrame2] scenarioES).updates = 1
    ∧ (runLoop [scenarioFrame, scenarioFrame2] scenarioES).events
        = [Ev.healthChanged (-10), Ev.gameOver 0] := by
  obtain ⟨hev, hsch, hren, hupd⟩ := scenario_run
  have hstep2 : loopStep scenarioFrame2 (loopStep scenarioFrame scenarioES)
      = loopStep scenarioFrame scenarioES := by
    have h := runLoop_unscheduled [scenarioFrame2] (loopStep scenarioFrame scenarioES) hsch
    simpa [runLoop] using h
  have hrun : runLoop [scenarioFrame, scenarioFrame2] scenarioES
      = loopStep scenarioFrame2 (loopStep scenarioFrame scenarioES) := rfl
  rw [hrun, hstep2]
  exact ⟨hren, hupd, hev⟩

/-- C7 (amended): in an unpaused frame at most one health notification is
emitted; any emitted value is the ceiling of the new health, differs from the
previously reported value, and is at most 100 whenever health was at most 100
before the frame — but it is an integer that may be negative, not confined to
0..100.  A paused frame emits nothing. -/
theorem health_notifications (env : Env) (mission : MissionData)
    (width height time : ℝ) (es : EngState) :
    (healthEvents ((animate env mission width height false time es).events.drop
        es.events.length)).length ≤ 1
    ∧ (∀ v : ℤ, Ev.healthChanged v ∈ (animate env mission width height false time es).events.drop
          es.events.length →
        v = ⌈(frameG env mission width height time es).player.health⌉
        ∧ v ≠ es.lastReportedHealth
        ∧ (es.g.player.health ≤ 100 → v ≤ 100))
    ∧ (animate env mission width height true time es).events = es.events := by
  obtain ⟨hg, hev, hsch, hren, hupd⟩ := animate_unpaused_spec env mission width height time es
  have hb : (frameG env mission width height time es).player.health ≤ es.g.player.health :=
    update_health env mission width height (frameDelta time es)
      { es.g with gameTime := es.g.gameTime + frameDelta time es }
  have hv100 : es.g.player.health ≤ 100 →
      (⌈(frameG env mission width height time es).player.health⌉ : ℤ) ≤ 100 := by
    intro h100
    have hle : (frameG env mission width height time es).player.health ≤ (100:ℝ) :=
      le_trans hb h100
    refine le_trans (Int.ceil_le_ceil hle) ?_
    norm_num
  have hdrop : (animate env mission width height false time es).events.drop es.events.length
      = (if (frameG env mission width height time es).score ≠ es.lastReportedScore
          then [Ev.scoreChanged (frameG env mission width height time es).score] else [])
        ++ ((if ⌈(frameG env mission width height time es).player.health⌉ ≠ es.lastReportedHealth
            then [Ev.healthChanged ⌈(frameG env mission width height time es).player.health⌉]
            else [])
          ++ (if (frameG env mission width height time es).player.health > 0
              then [] else [Ev.gameOver (frameG env mission width height time es).score])) := by
    rw [hev, List.append_assoc, List.append_assoc, List.drop_left]
  refine ⟨?_, ?_, (animate_paused_spec env mission width height time es).1⟩
  · rw [hdrop]
    split_ifs <;> simp [healthEvents, Ev.isHealth, List.filter_append]
  · intro v hv
    rw [hdrop] at hv
    by_cases h2 : ⌈(frameG env mission width height time es).player.health⌉
        ≠ es.lastReportedHealth
    · rw [if_pos h2] at hv
      have hv' : v = ⌈(frameG env mission width height time es).player.health⌉ := by
        rcases List.mem_append.mp hv with h | h
        · exfalso; revert h; split_ifs <;> simp
        · rcases List.mem_append.mp h with h | h
          · simpa using h
          · exfalso; revert h; split_ifs <;> simp
      exact ⟨hv', by rw [hv']; exact h2, fun h100 => by rw [hv']; exact hv100 h100⟩
    · rw [if_neg h2] at hv
      exfalso
      rcases List.mem_append.mp hv with h | h
      · revert h; split_ifs <;> simp
      · rcases List.mem_append.mp h with h | h
        · simp at h
        · revert h; split_ifs <;> simp

/-- Closed witness for the health-notification theorem on the fatal frame. -/
theorem health_notifications_witness :
    (healthEvents ((animate scenarioEnv scenarioMission 1000 1000 false 5
        { scenarioES with scheduled := false }).events.drop
          ({ scenarioES with scheduled := false } : EngState).events.length)).length ≤ 1
    ∧ ((-10:ℤ) ≠ ({ scenarioES with scheduled := false } : EngState).lastReportedHealth) := by
  have hloop : loopStep scenarioFrame scenarioES
      = animate scenarioEnv scenarioMission 1000 1000 false 5
          { scenarioES with scheduled := false } := by
    unfold loopStep
    rw [if_pos (show scenarioES.scheduled = true from rfl)]
    rfl
  have hev := scenario_run.1
  rw [hloop] at hev
  have hmem : Ev.healthChanged (-10) ∈ (animate scenarioEnv scenarioMission 1000 1000 false 5
      { scenarioES with scheduled := false }).events.drop
        ({ scenarioES with scheduled := false } : EngState).events.length := by
    rw [show ({ scenarioES with scheduled := false } : EngState).events.length = 0 from rfl,
      List.drop_zero, hev]
    simp
  have h := (health_notifications scenarioEnv scenarioMission 1000 1000 5
      { scenarioES with scheduled := false }).2.1 (-10) hmem
  exact ⟨(health_notifications scenarioEnv scenarioMission 1000 1000 5
      { scenarioES with scheduled := false }).1, h.2.1⟩

/-- C7 counterexample to the claim as stated: the engine emits a health
notification carrying -10, outside the claimed 0..100 range. -/
theorem health_notification_range_counterexample :
    Ev.healthChanged (-10) ∈ (loopStep scenarioFrame scenarioES).events
    ∧ (-10:ℤ) < 0 := by
  have hev := scenario_run.1
  rw [hev]
  refine ⟨by simp, by norm_num⟩

end Stardust

end
